import Mathlib

/-!
# ProbeSim: detector construction and step classification

A shallow embedding of `src/DetectorConstruction.cc` and `src/SteppingAction.cc`.

Conventions of the embedding.

* `G4double` quantities are exact rationals. Lengths are in the native length
  unit of the toolkit (`mm = 1`, `cm = 10`, `m = 1000`).
* A pointer is a natural number, `0` being the null pointer; objects created
  with `new` receive the next serial number of the process, so two live
  objects never share a pointer.
* A pointer whose pointee is only read by name (a process, a particle
  definition) is an `Option` of the name, `none` being the null pointer.
* Dereferencing a null pointer stops the callback with a `Fault`.
-/

namespace ProbeSim

/-! ## Units (G4SystemOfUnits) -/

/-- Native length unit. -/
def mm : ℚ := 1
/-- Centimetre in native length units. -/
def cm : ℚ := 10 * mm
/-- Metre in native length units. -/
def m : ℚ := 1000 * mm

/-! ## Geometry objects -/

/-- Pointer to an object of the toolkit, `0` is the null pointer. -/
abbrev Ptr := Nat

/-- The solids used by the geometry, with the constructor arguments of the
source: half lengths for `G4Box`; inner radius, outer radius and the four
angles (in degrees) for `G4Sphere`; inner radius, outer radius, half length
and two angles (in degrees) for `G4Tubs`. -/
inductive G4VSolid where
  | G4Box (name : String) (pX pY pZ : ℚ)
  | G4Sphere (name : String) (pRmin pRmax pSPhi pDPhi pSTheta pDTheta : ℚ)
  | G4Tubs (name : String) (pRMin pRMax pDz pSPhi pDPhi : ℚ)
  deriving DecidableEq, Repr

/-- A logical volume: its own address, its solid, its material pointer and
its name. -/
structure G4LogicalVolume where
  self : Ptr
  solid : G4VSolid
  material : Ptr
  name : String
  deriving DecidableEq, Repr

/-- A placed physical volume (`G4PVPlacement` without rotation): its own
address, translation, logical volume, name, mother logical volume, the
boolean-operation flag, copy number and the overlap-check flag. -/
structure G4PVPlacement where
  self : Ptr
  tlate : ℚ × ℚ × ℚ
  pCurrentLogical : Ptr
  pName : String
  pMotherLogical : Ptr
  pMany : Bool
  pCopyNo : Int
  pSurfChk : Bool
  deriving DecidableEq, Repr

/-- Copy number of a physical volume. -/
def G4PVPlacement.GetCopyNo (p : G4PVPlacement) : Int := p.pCopyNo

/-- Logical volume of a physical volume. -/
def G4PVPlacement.GetLogicalVolume (p : G4PVPlacement) : Ptr := p.pCurrentLogical

/-- The data members of `DetectorConstruction` (the messenger apart). The
detector pressure is kept in atmospheres and the density in g/cm3. -/
structure DetectorConstruction where
  sphereR : ℚ
  fTank_x : ℚ
  fTank_y : ℚ
  fTank_z : ℚ
  fBoxX : ℚ
  fBoxY : ℚ
  fBoxZ : ℚ
  fRoom_x : ℚ
  fRoom_y : ℚ
  fRoom_z : ℚ
  fSideThk : ℚ
  fTopThk : ℚ
  fChamber_x : ℚ
  fChamber_y : ℚ
  fChamber_z : ℚ
  fInc : ℚ
  fNeutronSource_x : ℚ
  fNeutronSource_y : ℚ
  fNeutronSource_z : ℚ
  fPoly_x : ℚ
  fPoly_y : ℚ
  fPoly_z : ℚ
  fSourceOffset_z : ℚ
  fSlab_z : ℚ
  fGap : ℚ
  fDDHead_x : ℚ
  fDDHead_y : ℚ
  fDDHead_z : ℚ
  detectorDiam : ℚ
  detectorLen : ℚ
  detectorPressure : ℚ
  detectorDensity : ℚ
  fMaterial : Ptr
  worldP : Ptr
  worldL : Ptr
  roomL : Ptr
  roomP : Ptr
  slabL : Ptr
  slabP : Ptr
  tankL : Ptr
  tankP : Ptr
  chamberL : Ptr
  chamberP : Ptr
  probePeL : Ptr
  probePeP : Ptr
  detectorL : Ptr
  detectorP : Ptr
  polyL : Ptr
  polyP : Ptr
  nSourceL : Ptr
  nSourceP : Ptr

/-! ## The step event (G4Step, as far as the callback reads it) -/

/-- Step status of a step point (`G4StepStatus`). -/
inductive G4StepStatus where
  | fWorldBoundary
  | fGeomBoundary
  | fAtRestDoItProc
  | fAlongStepDoItProc
  | fPostStepDoItProc
  | fUserDefinedLimit
  | fExclusivelyForcedProc
  | fUndefined
  deriving DecidableEq, Repr

/-- What `UserSteppingAction` reads of a `G4Step`.

* `processDefinedStep`: name of `GetPostStepPoint()->GetProcessDefinedStep()`,
  `none` when that pointer is null;
* `prePhysical`, `postPhysical`: the physical volumes of the two step points,
  `none` when null (the touchable of a step point hands out this same volume);
* `position`: post-step position; `ekin`: post-step kinetic energy;
* `trackLength`, `localTime`, `particleName`, `parentID`: read from the track;
* `creatorProcess`: name of `GetTrack()->GetCreatorProcess()`, `none` when null;
* `postStepStatus`: `GetPostStepPoint()->GetStepStatus()`. -/
structure G4Step where
  processDefinedStep : Option String
  prePhysical : Option G4PVPlacement
  postPhysical : Option G4PVPlacement
  position : ℚ × ℚ × ℚ
  ekin : ℚ
  trackLength : ℚ
  localTime : ℚ
  particleName : String
  creatorProcess : Option String
  parentID : Int
  postStepStatus : G4StepStatus
  deriving DecidableEq, Repr

/-! ## Output channels (G4AnalysisManager) -/

/-- The calls the callback makes on the analysis manager. -/
inductive AnalysisCall where
  | FillH1 (id : Nat) (value : ℚ)
  | FillNtupleDColumn (ntupleId : Nat) (columnId : Nat) (value : ℚ)
  | AddNtupleRow (ntupleId : Nat)
  deriving DecidableEq, Repr

/-- Null dereferences of `UserSteppingAction`, by the source line. -/
inductive Fault where
  | nullProcessDefinedStep
  | nullCreatorProcessProton
  | nullCreatorProcessSecondary
  deriving DecidableEq, Repr

/-- Everything one call of `UserSteppingAction` did: the process names handed
to `Run::CountProcesses`, the analysis-manager calls in program order, and the
fault that stopped it, if any. -/
structure Outcome where
  counted : List String
  calls : List AnalysisCall
  fault : Option Fault
  deriving DecidableEq, Repr

/-- Lines 93-98, protons in detector. `none` is the null dereference of the
creator process; the `&&` of the source is evaluated left to right. -/
def protonsInDetector (fDetector : DetectorConstruction) (step : G4Step)
    (preLogical : Ptr) : Option (List AnalysisCall) :=
  if step.particleName = "proton" then
    if preLogical = fDetector.detectorL then
      match step.creatorProcess with
      | none => none
      | some creatorName =>
        if creatorName = "neutronInelastic" then
          some [AnalysisCall.FillH1 6 step.ekin]
        else some []
    else some []
  else some []

/-- Lines 100-105, the block that only holds a commented-out print. `none`
is the null dereference of the creator process. -/
def neutronInelasticInDetector (fDetector : DetectorConstruction) (step : G4Step)
    (preLogical : Ptr) : Option (List AnalysisCall) :=
  if step.parentID > 0 then
    match step.creatorProcess with
    | none => none
    | some creatorName =>
      if creatorName = "neutronInelastic" ∧ preLogical = fDetector.detectorL then
        some []
      else some []
  else some []

/-- Lines 107-133, neutron passing through boundary. -/
def neutronBoundary (fDetector : DetectorConstruction) (step : G4Step)
    (preLogical postLogical : Ptr) : List AnalysisCall :=
  if step.particleName = "neutron" ∧ step.postStepStatus = G4StepStatus.fGeomBoundary then
    (if preLogical = fDetector.tankL ∧ postLogical = fDetector.roomL then
      [AnalysisCall.FillNtupleDColumn 0 0 (step.position.1 / 1000),
       AnalysisCall.FillNtupleDColumn 0 1 (step.position.2.1 / 1000),
       AnalysisCall.FillNtupleDColumn 0 2 (step.position.2.2 / 1000),
       AnalysisCall.FillNtupleDColumn 0 3 step.ekin,
       AnalysisCall.AddNtupleRow 0]
     else [])
    ++ (if preLogical = fDetector.slabL ∧ postLogical = fDetector.roomL then
      [AnalysisCall.FillNtupleDColumn 2 0 (step.position.1 / 1000),
       AnalysisCall.FillNtupleDColumn 2 1 (step.position.2.1 / 1000),
       AnalysisCall.FillNtupleDColumn 2 2 (step.position.2.2 / 1000),
       AnalysisCall.FillNtupleDColumn 2 3 step.ekin,
       AnalysisCall.AddNtupleRow 2]
     else [])
    ++ (if preLogical = fDetector.probePeL ∧ postLogical = fDetector.detectorL then
      [AnalysisCall.FillH1 1 step.ekin]
     else [])
  else []

/-- Lines 135-146, neutron capture. -/
def neutronCapture (fDetector : DetectorConstruction) (step : G4Step)
    (processName : String) (postLogical : Ptr) : List AnalysisCall :=
  if step.particleName = "neutron" ∧ processName = "nCapture" then
    (if postLogical = fDetector.detectorL then [AnalysisCall.FillH1 2 step.ekin] else [])
    ++ (if postLogical = fDetector.tankL then [AnalysisCall.FillH1 3 step.ekin] else [])
    ++ (if postLogical = fDetector.polyL then [AnalysisCall.FillH1 4 step.ekin] else [])
  else []

/-- Lines 148-157, neutron inelastic. -/
def neutronInelastic (fDetector : DetectorConstruction) (step : G4Step)
    (processName : String) (postLogical : Ptr) : List AnalysisCall :=
  if step.particleName = "neutron" ∧ processName = "neutronInelastic" then
    if postLogical = fDetector.detectorL then
      [AnalysisCall.FillH1 5 step.ekin,
       AnalysisCall.FillNtupleDColumn 4 0 step.ekin,
       AnalysisCall.FillNtupleDColumn 4 1 step.localTime,
       AnalysisCall.AddNtupleRow 4]
    else []
  else []

/-- Lines 160-180, gamma passing through boundary. -/
def gammaBoundary (fDetector : DetectorConstruction) (step : G4Step)
    (preLogical postLogical : Ptr) : List AnalysisCall :=
  if step.particleName = "gamma" ∧ step.postStepStatus = G4StepStatus.fGeomBoundary then
    (if preLogical = fDetector.tankL ∧ postLogical = fDetector.roomL then
      [AnalysisCall.FillNtupleDColumn 1 0 (step.position.1 / 1000),
       AnalysisCall.FillNtupleDColumn 1 1 (step.position.2.1 / 1000),
       AnalysisCall.FillNtupleDColumn 1 2 (step.position.2.2 / 1000),
       AnalysisCall.FillNtupleDColumn 1 3 step.ekin,
       AnalysisCall.AddNtupleRow 1]
     else [])
    ++ (if preLogical = fDetector.slabL ∧ postLogical = fDetector.roomL then
      [AnalysisCall.FillNtupleDColumn 3 0 (step.position.1 / 1000),
       AnalysisCall.FillNtupleDColumn 3 1 (step.position.2.1 / 1000),
       AnalysisCall.FillNtupleDColumn 3 2 (step.position.2.2 / 1000),
       AnalysisCall.FillNtupleDColumn 3 3 step.ekin,
       AnalysisCall.AddNtupleRow 3]
     else [])
  else []

/-- `SteppingAction::UserSteppingAction`, lines 57-181. -/
def UserSteppingAction (fDetector : DetectorConstruction) (step : G4Step) : Outcome :=
  -- line 63: process->GetProcessName()
  match step.processDefinedStep with
  | none => { counted := [], calls := [], fault := some Fault.nullProcessDefinedStep }
  | some processName =>
    -- line 67: run->CountProcesses(process)
    let counted := [processName]
    -- line 83
    match step.prePhysical, step.postPhysical with
    | some prePhysical, some postPhysical =>
      -- line 84
      if prePhysical.GetCopyNo = -1 ∧ postPhysical.GetCopyNo = -1 then
        { counted := counted, calls := [], fault := none }
      else
        let preLogical := prePhysical.GetLogicalVolume
        let postLogical := postPhysical.GetLogicalVolume
        match protonsInDetector fDetector step preLogical with
        | none => { counted := counted, calls := [],
                    fault := some Fault.nullCreatorProcessProton }
        | some protonCalls =>
          match neutronInelasticInDetector fDetector step preLogical with
          | none => { counted := counted, calls := protonCalls,
                      fault := some Fault.nullCreatorProcessSecondary }
          | some secondaryCalls =>
            { counted := counted,
              calls := protonCalls ++ secondaryCalls
                ++ neutronBoundary fDetector step preLogical postLogical
                ++ neutronCapture fDetector step processName postLogical
                ++ neutronInelastic fDetector step processName postLogical
                ++ gammaBoundary fDetector step preLogical postLogical,
              fault := none }
    | _, _ => { counted := counted, calls := [], fault := none }

/-! ## Reading the output channels off the calls -/

/-- Modelled from the spec: the channel registry operation
fill-histogram(channel, value); the samples that the calls add to histogram
`id`, in order. -/
def h1Samples (id : Nat) : List AnalysisCall → List ℚ
  | [] => []
  | AnalysisCall.FillH1 i v :: rest =>
    if i = id then v :: h1Samples id rest else h1Samples id rest
  | _ :: rest => h1Samples id rest

/-- Set column `col` of a pending row, replacing an earlier value. -/
def setColumn (col : Nat) (v : ℚ) : List (Nat × ℚ) → List (Nat × ℚ)
  | [] => [(col, v)]
  | (c, w) :: rest => if c = col then (c, v) :: rest else (c, w) :: setColumn col v rest

/-- Modelled from the spec: the channel registry operations
fill-tuple-column(channel, column, value) and commit-tuple-row(channel); the
rows that the calls commit to tuple `id`, each row being the (column, value)
pairs filled since the previous commit, starting from the pending row `row`. -/
def ntupleRowsFrom (id : Nat) (row : List (Nat × ℚ)) : List AnalysisCall → List (List (Nat × ℚ))
  | [] => []
  | AnalysisCall.FillNtupleDColumn i c v :: rest =>
    if i = id then ntupleRowsFrom id (setColumn c v row) rest else ntupleRowsFrom id row rest
  | AnalysisCall.AddNtupleRow i :: rest =>
    if i = id then row :: ntupleRowsFrom id [] rest else ntupleRowsFrom id row rest
  | AnalysisCall.FillH1 _ _ :: rest => ntupleRowsFrom id row rest

/-- Rows committed to tuple `id` by the calls, with no column pending at the
start. -/
def ntupleRows (id : Nat) (calls : List AnalysisCall) : List (List (Nat × ℚ)) :=
  ntupleRowsFrom id [] calls

/-- Whether a call writes to a tuple channel (fills a column or commits a row). -/
def AnalysisCall.isNtupleCall : AnalysisCall → Bool
  | .FillH1 _ _ => false
  | .FillNtupleDColumn _ _ _ => true
  | .AddNtupleRow _ => true

/-- The six volume handles the classifier compares against (tank, room, slab,
moderator, detector gas, shield) are pairwise distinct. -/
def distinctHandles (d : DetectorConstruction) : Prop :=
  [d.tankL, d.roomL, d.slabL, d.probePeL, d.detectorL, d.polyL].Nodup

instance (d : DetectorConstruction) : Decidable (distinctHandles d) := by
  unfold distinctHandles; infer_instance

/-- The event gets past the two discard checks of lines 83-84: both physical
volumes are resolved and they do not both carry copy number -1. -/
def passesDiscardChecks (step : G4Step) : Prop :=
  ∃ pre post, step.prePhysical = some pre ∧ step.postPhysical = some post ∧
    ¬ (pre.GetCopyNo = -1 ∧ post.GetCopyNo = -1)

/-- The labels the engine attaches to every step are present: the process that
defined the step, and the creator process of a secondary track (parent ID
above zero). -/
def labelsPresent (step : G4Step) : Prop :=
  step.processDefinedStep.isSome = true ∧
    (step.parentID > 0 → step.creatorProcess.isSome = true)

/-- The engine sets the step status `fGeomBoundary` only on a step that a
transportation process limits: on a step flagged as a boundary crossing the
step-defining process is neither nCapture nor neutronInelastic. -/
def boundaryLimitedByTransportation (step : G4Step) : Prop :=
  step.postStepStatus = G4StepStatus.fGeomBoundary →
    step.processDefinedStep ≠ some "nCapture" ∧
    step.processDefinedStep ≠ some "neutronInelastic"

instance (step : G4Step) : Decidable (boundaryLimitedByTransportation step) := by
  unfold boundaryLimitedByTransportation; infer_instance

/-! ## The engine state that `DetectorConstruction` acts on -/

/-- An entry of the material table: address and name of one `G4Material`. -/
structure G4Material where
  self : Ptr
  name : String
  deriving DecidableEq, Repr

/-- An entry of the element table: name and symbol of one `G4Element`. -/
structure G4Element where
  name : String
  symbol : String
  deriving DecidableEq, Repr

/-- An entry of the isotope table: name, Z and A of one `G4Isotope`. -/
structure G4Isotope where
  name : String
  Z : Nat
  A : Nat
  deriving DecidableEq, Repr

/-- Lines written to the console. -/
inductive Diagnostic where
  | materialNotFound (materialChoice : String)
  | probeEdgeFromGeneratorHead (cmValue : ℚ)
  | probeEdgeFromFrontOfBpoly (cmValue : ℚ)
  deriving DecidableEq, Repr

/-- Modelled from the spec: the process-wide stores owned by the external
engine that the configurator registers solids, volumes and materials into, the
stale-physics-tables mark, the geometry re-initialisation request and the
console. `nextPtr` is the serial number the next `new` hands out. -/
structure Engine where
  solidStore : List G4VSolid
  logicalVolumeStore : List G4LogicalVolume
  physicalVolumeStore : List G4PVPlacement
  materialTable : List G4Material
  elementTable : List G4Element
  isotopeTable : List G4Isotope
  nextPtr : Ptr
  geometryOpen : Bool
  physicsModified : Bool
  geometryReinitialized : Bool
  cout : List Diagnostic
  deriving DecidableEq, Repr

/-- Modelled from the spec: the external materials database, the exact string
keys it resolves for materials and for elements. -/
structure NistDatabase where
  materials : List String
  elements : List String
  deriving DecidableEq, Repr

/-- The engine before anything is registered. -/
def Engine.startup : Engine :=
  { solidStore := [], logicalVolumeStore := [], physicalVolumeStore := [],
    materialTable := [], elementTable := [], isotopeTable := [],
    nextPtr := 1, geometryOpen := false, physicsModified := false,
    geometryReinitialized := false, cout := [] }

/-- Statement `new G4Material(name, ...)`: the constructor registers the
object in the material table. -/
def newG4Material (name : String) (e : Engine) : Ptr × Engine :=
  (e.nextPtr, { e with materialTable := e.materialTable ++ [{ self := e.nextPtr, name := name }],
                       nextPtr := e.nextPtr + 1 })

/-- Statement `new G4Element(name, symbol, ...)`: registers in the element table. -/
def newG4Element (name symbol : String) (e : Engine) : Engine :=
  { e with elementTable := e.elementTable ++ [{ name := name, symbol := symbol }] }

/-- Statement `new G4Isotope(name, Z, A)`: registers in the isotope table. -/
def newG4Isotope (name : String) (Z A : Nat) (e : Engine) : Engine :=
  { e with isotopeTable := e.isotopeTable ++ [{ name := name, Z := Z, A := A }] }

/-- Modelled from the spec: material lookup by exact string key. An entry of
the material table with that name is returned; otherwise a key the database
resolves is built and registered; otherwise the result is the null pointer. -/
def FindOrBuildMaterial (nist : NistDatabase) (name : String) (e : Engine) : Ptr × Engine :=
  match e.materialTable.find? (fun mat => mat.name = name) with
  | some mat => (mat.self, e)
  | none => if name ∈ nist.materials then newG4Material name e else (0, e)

/-- Modelled from the spec: element lookup by symbol, building the element when
the database resolves the symbol and the table has none. -/
def FindOrBuildElement (nist : NistDatabase) (symb : String) (e : Engine) : Engine :=
  match e.elementTable.find? (fun el => el.symbol = symb) with
  | some _ => e
  | none => if symb ∈ nist.elements then newG4Element symb symb e else e

/-- Statement `new G4Box/G4Sphere/G4Tubs(...)`: registers in the solid store. -/
def newSolid (s : G4VSolid) (e : Engine) : G4VSolid × Engine :=
  (s, { e with solidStore := e.solidStore ++ [s] })

/-- Statement `new G4LogicalVolume(solid, material, name)`: registers in the
logical volume store. -/
def newG4LogicalVolume (solid : G4VSolid) (material : Ptr) (name : String)
    (e : Engine) : Ptr × Engine :=
  (e.nextPtr,
   { e with logicalVolumeStore := e.logicalVolumeStore ++
              [{ self := e.nextPtr, solid := solid, material := material, name := name }],
            nextPtr := e.nextPtr + 1 })

/-- Statement `new G4PVPlacement(0, tlate, logical, name, mother, many, copyNo,
surfChk)`: registers in the physical volume store. -/
def newG4PVPlacement (tlate : ℚ × ℚ × ℚ) (pCurrentLogical : Ptr) (pName : String)
    (pMotherLogical : Ptr) (pMany : Bool) (pCopyNo : Int) (pSurfChk : Bool)
    (e : Engine) : Ptr × Engine :=
  (e.nextPtr,
   { e with physicalVolumeStore := e.physicalVolumeStore ++
              [{ self := e.nextPtr, tlate := tlate, pCurrentLogical := pCurrentLogical,
                 pName := pName, pMotherLogical := pMotherLogical, pMany := pMany,
                 pCopyNo := pCopyNo, pSurfChk := pSurfChk }],
            nextPtr := e.nextPtr + 1 })

/-- Call `logical->SetMaterial(material)` on the logical volume at `logical`. -/
def Engine.SetLogicalMaterial (logical material : Ptr) (e : Engine) : Engine :=
  let stored := e.logicalVolumeStore.map
    (fun lv => if lv.self = logical then { lv with material := material } else lv)
  { e with logicalVolumeStore := stored }

/-- Material pointer of the logical volume at `logical`, if it is in the store. -/
def Engine.materialOf (e : Engine) (logical : Ptr) : Option Ptr :=
  (e.logicalVolumeStore.find? (fun lv => lv.self = logical)).map (fun lv => lv.material)

/-! ## DetectorConstruction -/

/-- `DetectorConstruction::DefineMaterials`, lines 116-153. -/
def DefineMaterials (e : Engine) : Engine :=
  let e := newG4Element "TS_H_of_Water" "H" e
  let e := newG4Element "Oxygen" "O" e
  let e := (newG4Material "Water_ts" e).2
  let e := newG4Isotope "H2" 1 2 e
  let e := newG4Element "TS_D_of_Heavy_Water" "D" e
  let e := (newG4Material "HeavyWater" e).2
  let e := newG4Isotope "C12" 6 12 e
  let e := newG4Element "TS_C_of_Graphite" "C" e
  let e := (newG4Material "graphite" e).2
  e

/-- `DetectorConstruction::SetMaterial`, lines 432-448. -/
def SetMaterial (nist : NistDatabase) (materialChoice : String)
    (d : DetectorConstruction) (e : Engine) : DetectorConstruction × Engine :=
  let found := FindOrBuildMaterial nist materialChoice e
  let pttoMaterial := found.1
  let e := found.2
  if pttoMaterial ≠ 0 then
    if d.fMaterial ≠ pttoMaterial then
      let d := { d with fMaterial := pttoMaterial }
      let e := if d.worldL ≠ 0 then e.SetLogicalMaterial d.worldL pttoMaterial else e
      (d, { e with physicsModified := true })
    else (d, e)
  else
    (d, { e with cout := e.cout ++ [Diagnostic.materialNotFound materialChoice] })

/-- `DetectorConstruction::SetSize`, lines 452-458. -/
def SetSize (x y z : ℚ) (d : DetectorConstruction) (e : Engine) :
    DetectorConstruction × Engine :=
  ({ d with fBoxX := x, fBoxY := y, fBoxZ := z }, { e with geometryReinitialized := true })

/-- The constructor `DetectorConstruction::DetectorConstruction`, lines 61-100.
The member initialiser list nulls `worldP`, `worldL` and `fMaterial`; the
other handles, which the constructor leaves unset, start at the null pointer
here. -/
def DetectorConstruction.create (nist : NistDatabase) (e : Engine) :
    DetectorConstruction × Engine :=
  let sphereR := 15 * cm
  let fTank_x := 7 * 2.5 * 9 * cm
  let fTank_y := 9 * 2.5 * 9 * cm
  let fTank_z := 18 * 6 * cm
  let fBoxX := 3 * m
  let fBoxY := 3 * m
  let fBoxZ := 3 * m
  let fRoom_x := fBoxX
  let fRoom_y := fBoxY
  let fRoom_z := fBoxZ
  let fSideThk := 9 * 2.5 * 2 * cm
  let fTopThk := 3 * 18 * cm
  let fChamber_x := fTank_x - 2 * fSideThk
  let fChamber_y := fTank_y - 2 * fSideThk
  let fChamber_z := fTank_z - fTopThk
  let fInc := 0.25 * m
  let fNeutronSource_x := 12 * cm
  let fNeutronSource_y := 37.5 * cm
  let fNeutronSource_z := 12 * cm
  let fPoly_x := fNeutronSource_x + 30 * cm
  let fPoly_y := fNeutronSource_y + 30 * cm
  let fPoly_z := fNeutronSource_z + 17.5 * cm
  let fSourceOffset_z := fPoly_z / 2 - fNeutronSource_z / 2 - 2.5 * cm
  let fSlab_z := 17.5 * cm
  let fGap := 10 * cm
  let fDDHead_x := 0 * cm
  let fDDHead_y := -fChamber_y / 2 + fPoly_y / 2 + 2.5 * cm + 5 * cm
  let fDDHead_z := -fBoxZ / 2 + fSlab_z + fGap + 15 * cm + fNeutronSource_z / 2
  let detectorDiam := 2.5 * cm
  let detectorLen := 8 * cm
  let detectorPressure := 8
  let detectorDensity := 0.9832
  let d : DetectorConstruction :=
    { sphereR := sphereR, fTank_x := fTank_x, fTank_y := fTank_y, fTank_z := fTank_z,
      fBoxX := fBoxX, fBoxY := fBoxY, fBoxZ := fBoxZ,
      fRoom_x := fRoom_x, fRoom_y := fRoom_y, fRoom_z := fRoom_z,
      fSideThk := fSideThk, fTopThk := fTopThk,
      fChamber_x := fChamber_x, fChamber_y := fChamber_y, fChamber_z := fChamber_z,
      fInc := fInc,
      fNeutronSource_x := fNeutronSource_x, fNeutronSource_y := fNeutronSource_y,
      fNeutronSource_z := fNeutronSource_z,
      fPoly_x := fPoly_x, fPoly_y := fPoly_y, fPoly_z := fPoly_z,
      fSourceOffset_z := fSourceOffset_z, fSlab_z := fSlab_z, fGap := fGap,
      fDDHead_x := fDDHead_x, fDDHead_y := fDDHead_y, fDDHead_z := fDDHead_z,
      detectorDiam := detectorDiam, detectorLen := detectorLen,
      detectorPressure := detectorPressure, detectorDensity := detectorDensity,
      fMaterial := 0, worldP := 0, worldL := 0,
      roomL := 0, roomP := 0, slabL := 0, slabP := 0, tankL := 0, tankP := 0,
      chamberL := 0, chamberP := 0, probePeL := 0, probePeP := 0,
      detectorL := 0, detectorP := 0, polyL := 0, polyP := 0,
      nSourceL := 0, nSourceP := 0 }
  let e := DefineMaterials e
  SetMaterial nist "G4_AIR" d e

/-- Lines 181-184: open the geometry and clean the physical volume, logical
volume and solid stores. -/
def cleanupOldGeometry (e : Engine) : Engine :=
  { e with geometryOpen := true, physicalVolumeStore := [], logicalVolumeStore := [],
           solidStore := [] }

/-- `DetectorConstruction::ConstructVolumes`, lines 178-416. The result is the
returned root volume `worldP`, the updated object and the updated engine. -/
def ConstructVolumes (nist : NistDatabase) (d : DetectorConstruction) (e : Engine) :
    Ptr × DetectorConstruction × Engine :=
  let e := cleanupOldGeometry e
  let checkOverlaps := true
  -- World
  let (worldS, e) := newSolid (G4VSolid.G4Box "World" (d.fBoxX / 2) (d.fBoxY / 2) (d.fBoxZ / 2)) e
  let (worldL, e) := newG4LogicalVolume worldS d.fMaterial "World" e
  let (worldP, e) := newG4PVPlacement (0, 0, 0) worldL "World" 0 false 0 checkOverlaps e
  -- Room
  let (roomS, e) := newSolid (G4VSolid.G4Box "Room" (d.fRoom_x / 2) (d.fRoom_y / 2) (d.fRoom_z / 2)) e
  let (roomL, e) := newG4LogicalVolume roomS d.fMaterial "Room" e
  let (roomP, e) := newG4PVPlacement (0, 0, 0) roomL "Room" worldL false 0 checkOverlaps e
  -- Slab
  let (concrete, e) := FindOrBuildMaterial nist "G4_CONCRETE" e
  let (slabS, e) := newSolid (G4VSolid.G4Box "Slab" (d.fRoom_x / 2) (d.fRoom_y / 2) (d.fSlab_z / 2)) e
  let (slabL, e) := newG4LogicalVolume slabS concrete "Slab" e
  let (slabP, e) := newG4PVPlacement (0, 0, d.fGap + d.fSlab_z / 2 - d.fBoxZ / 2) slabL "Slab"
    roomL false 0 checkOverlaps e
  -- line 244: the local floor_z = fGap + fSlab_z - fBoxZ / 2 is computed and never read
  -- Tank
  let (water, e) := FindOrBuildMaterial nist "G4_WATER" e
  let (tankS, e) := newSolid (G4VSolid.G4Box "tank" (d.fTank_x / 2) (d.fTank_y / 2) (d.fTank_z / 2)) e
  let (tankL, e) := newG4LogicalVolume tankS water "Tank" e
  let (tankP, e) := newG4PVPlacement (0, 0, -d.fRoom_z / 2 + d.fGap + d.fSlab_z + d.fTank_z / 2)
    tankL "Tank" roomL false 0 checkOverlaps e
  -- Chamber
  let (chamberS, e) := newSolid
    (G4VSolid.G4Box "Chamber" (d.fChamber_x / 2) (d.fChamber_y / 2) (d.fChamber_z / 2)) e
  let (chamberL, e) := newG4LogicalVolume chamberS d.fMaterial "Chamber" e
  let (chamberP, e) := newG4PVPlacement (0, 0, -d.fTank_z / 2 + d.fChamber_z / 2) chamberL
    "Chamber" tankL false 0 checkOverlaps e
  -- Neutron probe: polyethylene and pressurized helium-3
  let (PE, e) := FindOrBuildMaterial nist "G4_POLYETHYLENE" e
  let e := newG4Isotope "He3" 2 3 e
  let e := newG4Element "Helium" "He" e
  let (det_He, e) := newG4Material "PressurizedHe3" e
  -- HDPE moderator
  let (sphereS, e) := newSolid (G4VSolid.G4Sphere "Sphere" (0 * cm) (10 * cm) 0 360 0 360) e
  let (probePeL, e) := newG4LogicalVolume sphereS PE "Probe_PE" e
  let (probePeP, e) := newG4PVPlacement (0, d.fChamber_y / 2 - 15 * cm, -6.5 * cm) probePeL
    "probePE" chamberL false 0 checkOverlaps e
  let distance := d.fChamber_y / 2 - 10 * cm - 15 * cm - d.fDDHead_y
  let distance_front :=
    d.fChamber_y / 2 - 10 * cm - 15 * cm - (-d.fChamber_y / 2 + d.fPoly_y + 2.5 * cm)
  let e := { e with cout := e.cout ++ [Diagnostic.probeEdgeFromGeneratorHead (distance / cm),
                                       Diagnostic.probeEdgeFromFrontOfBpoly (distance_front / cm)] }
  -- Helium-3 tube
  let (detectorS, e) := newSolid
    (G4VSolid.G4Tubs "detector" 0 (d.detectorDiam / 2) (d.detectorLen / 2) 0 360) e
  let (detectorL, e) := newG4LogicalVolume detectorS det_He "detector" e
  let (detectorP, e) := newG4PVPlacement (0, 0, 0) detectorL "Detector" probePeL false 0
    checkOverlaps e
  -- borated polyethylene shielding
  let e := FindOrBuildElement nist "B" e
  let e := FindOrBuildElement nist "H" e
  let e := FindOrBuildElement nist "O" e
  let e := FindOrBuildElement nist "C" e
  let (bpoly, e) := newG4Material "B-Poly" e
  let (polyS, e) := newSolid (G4VSolid.G4Box "poly" (d.fPoly_x / 2) (d.fPoly_y / 2) (d.fPoly_z / 2)) e
  let (polyL, e) := newG4LogicalVolume polyS bpoly "poly" e
  let (polyP, e) := newG4PVPlacement
    (0, -d.fChamber_y / 2 + d.fPoly_y / 2 + 2.5 * cm, -d.fChamber_z / 2 + d.fPoly_z / 2)
    polyL "poly" chamberL false 0 checkOverlaps e
  -- source cavity
  let (nSourceS, e) := newSolid
    (G4VSolid.G4Box "source" (d.fNeutronSource_x / 2) ((d.fNeutronSource_y + 15 * cm) / 2)
      (d.fNeutronSource_z / 2)) e
  let (nSourceL, e) := newG4LogicalVolume nSourceS d.fMaterial "source" e
  let (nSourceP, e) := newG4PVPlacement
    (0, d.fPoly_y / 2 - (d.fNeutronSource_y + 15 * cm) / 2, d.fSourceOffset_z)
    nSourceL "source" polyL false 0 checkOverlaps e
  let d := { d with worldL := worldL, worldP := worldP, roomL := roomL, roomP := roomP,
                    slabL := slabL, slabP := slabP, tankL := tankL, tankP := tankP,
                    chamberL := chamberL, chamberP := chamberP,
                    probePeL := probePeL, probePeP := probePeP,
                    detectorL := detectorL, detectorP := detectorP,
                    polyL := polyL, polyP := polyP, nSourceL := nSourceL, nSourceP := nSourceP }
  (worldP, d, e)

/-- A materials database that resolves the keys the program asks for. -/
def sampleNist : NistDatabase :=
  { materials := ["G4_AIR", "G4_CONCRETE", "G4_WATER", "G4_POLYETHYLENE", "G4_Galactic"],
    elements := ["B", "H", "O", "C"] }

/-- The detector after its constructor and one `Construct()` on a fresh engine. -/
def builtDetector : DetectorConstruction :=
  let made := DetectorConstruction.create sampleNist Engine.startup
  (ConstructVolumes sampleNist made.1 made.2).2.1

/-- The engine after the constructor and one `Construct()`. -/
def builtEngine : Engine :=
  let made := DetectorConstruction.create sampleNist Engine.startup
  (ConstructVolumes sampleNist made.1 made.2).2.2

/-- The engine after a second `Construct()` in succession. -/
def rebuiltEngine : Engine :=
  (ConstructVolumes sampleNist builtDetector builtEngine).2.2

/-! ## Sample events on the built detector -/

/-- The placement registered under `name` in the physical volume store. -/
def Engine.physicalNamed (e : Engine) (name : String) : Option G4PVPlacement :=
  e.physicalVolumeStore.find? (fun p => p.pName = name)

/-- A physical volume outside the constructed hierarchy carrying the copy
number -1 that line 84 tests for. -/
def outsideWorld : G4PVPlacement :=
  { self := 1000, tlate := (0, 0, 0), pCurrentLogical := 1001, pName := "OutOfWorld",
    pMotherLogical := 0, pMany := false, pCopyNo := -1, pSurfChk := false }

/-- The placement named `name` of the built hierarchy (`outsideWorld` if there
is none). -/
def builtPlacement (name : String) : G4PVPlacement :=
  (builtEngine.physicalNamed name).getD outsideWorld

/-- A primary neutron crossing from the tank into the room at (1, 2, 3). -/
def neutronLeavingTank : G4Step :=
  { processDefinedStep := some "Transportation",
    prePhysical := builtEngine.physicalNamed "Tank",
    postPhysical := builtEngine.physicalNamed "Room",
    position := (1, 2, 3), ekin := 5 / 2, trackLength := 40, localTime := 7,
    particleName := "neutron", creatorProcess := none, parentID := 0,
    postStepStatus := G4StepStatus.fGeomBoundary }

/-- A step whose post-step physical volume is null. -/
def stepLeavingWorld : G4Step :=
  { neutronLeavingTank with postPhysical := none,
                            postStepStatus := G4StepStatus.fWorldBoundary }

/-- A step with both step points in the copy number -1 volume. -/
def stepOutsideWorld : G4Step :=
  { neutronLeavingTank with prePhysical := some outsideWorld, postPhysical := some outsideWorld }

/-- A neutron captured in the detector gas after a step that started in the
moderator sphere. -/
def neutronCapturedInDetector : G4Step :=
  { processDefinedStep := some "nCapture",
    prePhysical := builtEngine.physicalNamed "probePE",
    postPhysical := builtEngine.physicalNamed "Detector",
    position := (0, 250, -65), ekin := 1 / 40, trackLength := 900, localTime := 12,
    particleName := "neutron", creatorProcess := none, parentID := 0,
    postStepStatus := G4StepStatus.fPostStepDoItProc }

/-- A neutron scattering inelastically in the detector gas. -/
def neutronInelasticInGas : G4Step :=
  { neutronCapturedInDetector with processDefinedStep := some "neutronInelastic",
                                   prePhysical := builtEngine.physicalNamed "Detector" }

/-- A secondary proton stepping in the detector gas, created by a neutron
inelastic reaction. -/
def protonFromInelastic : G4Step :=
  { processDefinedStep := some "hIoni",
    prePhysical := builtEngine.physicalNamed "Detector",
    postPhysical := builtEngine.physicalNamed "Detector",
    position := (0, 250, -65), ekin := 3 / 5, trackLength := 2, localTime := 1,
    particleName := "proton", creatorProcess := some "neutronInelastic", parentID := 1,
    postStepStatus := G4StepStatus.fPostStepDoItProc }

/-- The same proton event with elastic scattering as the creator process. -/
def protonFromElastic : G4Step :=
  { protonFromInelastic with creatorProcess := some "hadElastic" }

/-- A primary proton (no creator process, parent ID 0) stepping in the
detector gas. -/
def primaryProtonInGas : G4Step :=
  { protonFromInelastic with creatorProcess := none, parentID := 0 }

/-- The tank-to-room neutron event with a null step-defining process. -/
def stepWithoutProcess : G4Step :=
  { neutronLeavingTank with processDefinedStep := none }

/-! ## Geometry of the constructed hierarchy -/

/-- The closed point set of a solid in its own frame, over an ordered field
`K` that holds the rational dimensions: a box by its half lengths, a sphere by
its radial shell, a tube by its radial shell and half length. The angular
arguments are not read: the point set is that of a solid with full angular
ranges (`fullAngles`). -/
def G4VSolid.Inside {K : Type} [LinearOrderedField K] : G4VSolid → K × K × K → Prop
  | .G4Box _ pX pY pZ, p =>
    -(pX : K) ≤ p.1 ∧ p.1 ≤ (pX : K) ∧ -(pY : K) ≤ p.2.1 ∧ p.2.1 ≤ (pY : K) ∧
    -(pZ : K) ≤ p.2.2 ∧ p.2.2 ≤ (pZ : K)
  | .G4Sphere _ pRmin pRmax _ _ _ _, p =>
    (pRmin : K) ^ 2 ≤ p.1 ^ 2 + p.2.1 ^ 2 + p.2.2 ^ 2 ∧
    p.1 ^ 2 + p.2.1 ^ 2 + p.2.2 ^ 2 ≤ (pRmax : K) ^ 2
  | .G4Tubs _ pRMin pRMax pDz _ _, p =>
    (pRMin : K) ^ 2 ≤ p.1 ^ 2 + p.2.1 ^ 2 ∧ p.1 ^ 2 + p.2.1 ^ 2 ≤ (pRMax : K) ^ 2 ∧
    -(pDz : K) ≤ p.2.2 ∧ p.2.2 ≤ (pDz : K)

/-- The interior of a solid in its own frame: `Inside` with strict bounds. -/
def G4VSolid.Interior {K : Type} [LinearOrderedField K] : G4VSolid → K × K × K → Prop
  | .G4Box _ pX pY pZ, p =>
    -(pX : K) < p.1 ∧ p.1 < (pX : K) ∧ -(pY : K) < p.2.1 ∧ p.2.1 < (pY : K) ∧
    -(pZ : K) < p.2.2 ∧ p.2.2 < (pZ : K)
  | .G4Sphere _ pRmin pRmax _ _ _ _, p =>
    (pRmin : K) ^ 2 < p.1 ^ 2 + p.2.1 ^ 2 + p.2.2 ^ 2 ∧
    p.1 ^ 2 + p.2.1 ^ 2 + p.2.2 ^ 2 < (pRmax : K) ^ 2
  | .G4Tubs _ pRMin pRMax pDz _ _, p =>
    (pRMin : K) ^ 2 < p.1 ^ 2 + p.2.1 ^ 2 ∧ p.1 ^ 2 + p.2.1 ^ 2 < (pRMax : K) ^ 2 ∧
    -(pDz : K) < p.2.2 ∧ p.2.2 < (pDz : K)

/-- The angular arguments of the solid (in degrees) span the full ranges: phi
from 0 over 360, and for a sphere theta from 0 over at least 180. -/
def G4VSolid.fullAngles : G4VSolid → Prop
  | .G4Box _ _ _ _ => True
  | .G4Sphere _ _ _ pSPhi pDPhi pSTheta pDTheta =>
    pSPhi = 0 ∧ pDPhi = 360 ∧ pSTheta = 0 ∧ 180 ≤ pDTheta
  | .G4Tubs _ _ _ _ pSPhi pDPhi => pSPhi = 0 ∧ pDPhi = 360

/-- A point of the daughter frame seen in the mother frame, for a placement
without rotation at translation `t`. -/
def translate {K : Type} [LinearOrderedField K] (t : ℚ × ℚ × ℚ) (p : K × K × K) : K × K × K :=
  (p.1 + (t.1 : K), p.2.1 + (t.2.1 : K), p.2.2 + (t.2.2 : K))

/-- A point of the mother frame seen in the frame of a daughter placed without
rotation at translation `t`. -/
def untranslate {K : Type} [LinearOrderedField K] (t : ℚ × ℚ × ℚ) (q : K × K × K) : K × K × K :=
  (q.1 - (t.1 : K), q.2.1 - (t.2.1 : K), q.2.2 - (t.2.2 : K))

/-- Name and solid of the logical volume at address `logical`, if the logical
volume store holds one. -/
def Engine.logicalAt (e : Engine) (logical : Ptr) : Option (String × G4VSolid) :=
  (e.logicalVolumeStore.map (fun lv => (lv.self, (lv.name, lv.solid)))).lookup logical

/-- The solid of the placement lies within the solid of its mother volume at
the placement translation: both logical volumes are in the store, both solids
have full angular ranges, and every point of the daughter solid, moved by the
translation, is a point of the mother solid. -/
def Engine.withinMother (K : Type) [LinearOrderedField K] (e : Engine)
    (pv : G4PVPlacement) : Prop :=
  ∃ s ms, e.logicalAt pv.pCurrentLogical = some s ∧ e.logicalAt pv.pMotherLogical = some ms ∧
    s.2.fullAngles ∧ ms.2.fullAngles ∧
    ∀ p : K × K × K, s.2.Inside p → ms.2.Inside (translate pv.tlate p)

/-- The solids of two placements in the same mother have no interior point in
common: both logical volumes are in the store and no point of the mother frame
is interior to both translated solids. -/
def Engine.interiorsDisjoint (K : Type) [LinearOrderedField K] (e : Engine)
    (a b : G4PVPlacement) : Prop :=
  ∃ sa sb, e.logicalAt a.pCurrentLogical = some sa ∧ e.logicalAt b.pCurrentLogical = some sb ∧
    ∀ q : K × K × K,
      ¬ (sa.2.Interior (untranslate a.tlate q) ∧ sb.2.Interior (untranslate b.tlate q))

/-- The materials that `FindOrBuildMaterial` registers for the key `name`: one
entry at address `ptr` when the table has no material of that name and the
database resolves the key, none otherwise. -/
def builtEntries (nist : NistDatabase) (name : String) (table : List G4Material)
    (ptr : Ptr) : List G4Material :=
  match table.find? (fun mat => mat.name = name) with
  | some _ => []
  | none => if name ∈ nist.materials then [{ self := ptr, name := name }] else []

/-- Lines 86-180 of `UserSteppingAction`: what the callback does with an event
that the two discard checks have let through, `processName` being the name
read at line 63 and `prePhysical`, `postPhysical` the two resolved volumes. -/
def ruleTable (fDetector : DetectorConstruction) (step : G4Step) (processName : String)
    (prePhysical postPhysical : G4PVPlacement) : Outcome :=
  let counted := [processName]
  let preLogical := prePhysical.GetLogicalVolume
  let postLogical := postPhysical.GetLogicalVolume
  match protonsInDetector fDetector step preLogical with
  | none => { counted := counted, calls := [],
              fault := some Fault.nullCreatorProcessProton }
  | some protonCalls =>
    match neutronInelasticInDetector fDetector step preLogical with
    | none => { counted := counted, calls := protonCalls,
                fault := some Fault.nullCreatorProcessSecondary }
    | some secondaryCalls =>
      { counted := counted,
        calls := protonCalls ++ secondaryCalls
          ++ neutronBoundary fDetector step preLogical postLogical
          ++ neutronCapture fDetector step processName postLogical
          ++ neutronInelastic fDetector step processName postLogical
          ++ gammaBoundary fDetector step preLogical postLogical,
        fault := none }

/-- The detector after its constructor and one `Construct()`, starting from
the engine `e` with the materials database `nist`. -/
def constructedDetector (nist : NistDatabase) (e : Engine) : DetectorConstruction :=
  (ConstructVolumes nist (DetectorConstruction.create nist e).1
    (DetectorConstruction.create nist e).2).2.1

/-- The engine after the constructor and one `Construct()`, starting from the
engine `e` with the materials database `nist`. -/
def constructedEngine (nist : NistDatabase) (e : Engine) : Engine :=
  (ConstructVolumes nist (DetectorConstruction.create nist e).1
    (DetectorConstruction.create nist e).2).2.2

/-- The constructor, then `SetSize(x, y, z)`, then `ConstructVolumes()`: the
returned root volume, the detector and the engine. -/
def constructedAfterSetSize (nist : NistDatabase) (e : Engine) (x y z : ℚ) :
    Ptr × DetectorConstruction × Engine :=
  let made := DetectorConstruction.create nist e
  let sized := SetSize x y z made.1 made.2
  ConstructVolumes nist sized.1 sized.2

/-- A primary neutron step that starts and ends in the World volume. -/
def stepInsideWorld : G4Step :=
  { neutronLeavingTank with prePhysical := builtEngine.physicalNamed "World",
                            postPhysical := builtEngine.physicalNamed "World",
                            postStepStatus := G4StepStatus.fPostStepDoItProc }

/-! ## Theorems: the step classifier -/

theorem calls_of_neutron (fDetector : DetectorConstruction) (step : G4Step)
    (pre post : G4PVPlacement) (processName : String)
    (hproc : step.processDefinedStep = some processName)
    (hcre : step.parentID > 0 → step.creatorProcess.isSome = true)
    (hpre : step.prePhysical = some pre) (hpost : step.postPhysical = some post)
    (hdisc : ¬ (pre.GetCopyNo = -1 ∧ post.GetCopyNo = -1))
    (hn : step.particleName = "neutron") :
    UserSteppingAction fDetector step =
      { counted := [processName],
        calls := neutronBoundary fDetector step pre.GetLogicalVolume post.GetLogicalVolume
          ++ neutronCapture fDetector step processName post.GetLogicalVolume
          ++ neutronInelastic fDetector step processName post.GetLogicalVolume,
        fault := none } := by
  have hg : gammaBoundary fDetector step pre.GetLogicalVolume post.GetLogicalVolume = [] := by
    simp [gammaBoundary, hn]
  have hp : protonsInDetector fDetector step pre.GetLogicalVolume = some [] := by
    simp [protonsInDetector, hn]
  have hs : neutronInelasticInDetector fDetector step pre.GetLogicalVolume = some [] := by
    unfold neutronInelasticInDetector
    by_cases hpar : step.parentID > 0
    · obtain ⟨c, hc⟩ := Option.isSome_iff_exists.mp (hcre hpar)
      simp [hpar, hc]
    · simp [hpar]
  unfold UserSteppingAction
  simp only [hproc, hpre, hpost]
  rw [if_neg hdisc]
  simp only [hp, hs, hg, List.nil_append, List.append_nil]


theorem calls_of_gamma (fDetector : DetectorConstruction) (step : G4Step)
    (pre post : G4PVPlacement) (processName : String)
    (hproc : step.processDefinedStep = some processName)
    (hcre : step.parentID > 0 → step.creatorProcess.isSome = true)
    (hpre : step.prePhysical = some pre) (hpost : step.postPhysical = some post)
    (hdisc : ¬ (pre.GetCopyNo = -1 ∧ post.GetCopyNo = -1))
    (hg : step.particleName = "gamma") :
    UserSteppingAction fDetector step =
      { counted := [processName],
        calls := gammaBoundary fDetector step pre.GetLogicalVolume post.GetLogicalVolume,
        fault := none } := by
  have hb : neutronBoundary fDetector step pre.GetLogicalVolume post.GetLogicalVolume = [] := by
    simp [neutronBoundary, hg]
  have hc : neutronCapture fDetector step processName post.GetLogicalVolume = [] := by
    simp [neutronCapture, hg]
  have hi : neutronInelastic fDetector step processName post.GetLogicalVolume = [] := by
    simp [neutronInelastic, hg]
  have hp : protonsInDetector fDetector step pre.GetLogicalVolume = some [] := by
    simp [protonsInDetector, hg]
  have hs : neutronInelasticInDetector fDetector step pre.GetLogicalVolume = some [] := by
    unfold neutronInelasticInDetector
    by_cases hpar : step.parentID > 0
    · obtain ⟨c, hc⟩ := Option.isSome_iff_exists.mp (hcre hpar)
      simp [hpar, hc]
    · simp [hpar]
  unfold UserSteppingAction
  simp only [hproc, hpre, hpost]
  rw [if_neg hdisc]
  simp only [hp, hs, hb, hc, hi, List.nil_append, List.append_nil]

theorem distinctHandles_ne (d : DetectorConstruction) (h : distinctHandles d) :
    d.tankL ≠ d.roomL ∧ d.tankL ≠ d.slabL ∧ d.tankL ≠ d.probePeL ∧ d.tankL ≠ d.detectorL ∧
    d.tankL ≠ d.polyL ∧ d.roomL ≠ d.slabL ∧ d.roomL ≠ d.probePeL ∧ d.roomL ≠ d.detectorL ∧
    d.roomL ≠ d.polyL ∧ d.slabL ≠ d.probePeL ∧ d.slabL ≠ d.detectorL ∧ d.slabL ≠ d.polyL ∧
    d.probePeL ≠ d.detectorL ∧ d.probePeL ≠ d.polyL ∧ d.detectorL ≠ d.polyL := by
  unfold distinctHandles at h
  simp only [List.nodup_cons, List.mem_cons, List.mem_singleton, not_or, List.not_mem_nil,
    not_false_eq_true, List.nodup_nil, and_true] at h
  tauto

theorem calls_of_proton (fDetector : DetectorConstruction) (step : G4Step)
    (pre post : G4PVPlacement) (processName creatorName : String)
    (hproc : step.processDefinedStep = some processName)
    (hcre : step.creatorProcess = some creatorName)
    (hpre : step.prePhysical = some pre) (hpost : step.postPhysical = some post)
    (hdisc : ¬ (pre.GetCopyNo = -1 ∧ post.GetCopyNo = -1))
    (hp : step.particleName = "proton") :
    UserSteppingAction fDetector step =
      { counted := [processName],
        calls := if pre.GetLogicalVolume = fDetector.detectorL ∧
                    creatorName = "neutronInelastic"
                 then [AnalysisCall.FillH1 6 step.ekin] else [],
        fault := none } := by
  have hb : neutronBoundary fDetector step pre.GetLogicalVolume post.GetLogicalVolume = [] := by
    simp [neutronBoundary, hp]
  have hc : neutronCapture fDetector step processName post.GetLogicalVolume = [] := by
    simp [neutronCapture, hp]
  have hi : neutronInelastic fDetector step processName post.GetLogicalVolume = [] := by
    simp [neutronInelastic, hp]
  have hg : gammaBoundary fDetector step pre.GetLogicalVolume post.GetLogicalVolume = [] := by
    simp [gammaBoundary, hp]
  have hs : neutronInelasticInDetector fDetector step pre.GetLogicalVolume = some [] := by
    unfold neutronInelasticInDetector
    by_cases hpar : step.parentID > 0 <;> simp [hpar, hcre]
  have hq : protonsInDetector fDetector step pre.GetLogicalVolume =
      some (if pre.GetLogicalVolume = fDetector.detectorL ∧ creatorName = "neutronInelastic"
            then [AnalysisCall.FillH1 6 step.ekin] else []) := by
    unfold protonsInDetector
    by_cases hv : pre.GetLogicalVolume = fDetector.detectorL <;>
      by_cases hn : creatorName = "neutronInelastic" <;> simp [hp, hcre, hv, hn]
  unfold UserSteppingAction
  simp only [hproc, hpre, hpost]
  rw [if_neg hdisc]
  simp only [hq, hs, hb, hc, hi, hg, List.nil_append, List.append_nil]

theorem h1Samples_append (id : Nat) (a b : List AnalysisCall) :
    h1Samples id (a ++ b) = h1Samples id a ++ h1Samples id b := by
  induction a with
  | nil => rfl
  | cons c rest ih =>
    cases c with
    | FillH1 i v =>
      by_cases hi : i = id <;> simp [h1Samples, hi, ih]
    | FillNtupleDColumn i c v => simpa [h1Samples] using ih
    | AddNtupleRow i => simpa [h1Samples] using ih

theorem h1Samples_neutronBoundary (fDetector : DetectorConstruction) (step : G4Step)
    (preLogical postLogical : Ptr) (id : Nat) (hid : id ≠ 1) :
    h1Samples id (neutronBoundary fDetector step preLogical postLogical) = [] := by
  unfold neutronBoundary
  by_cases hc : step.particleName = "neutron" ∧ step.postStepStatus = G4StepStatus.fGeomBoundary
  · rw [if_pos hc]
    split_ifs <;> simp [h1Samples, Ne.symm hid]
  · rw [if_neg hc]; rfl

theorem neutronBoundary_no_ntuple (fDetector : DetectorConstruction) (step : G4Step)
    (preLogical postLogical : Ptr) (hroom : postLogical ≠ fDetector.roomL) :
    ∀ c ∈ neutronBoundary fDetector step preLogical postLogical, c.isNtupleCall = false := by
  unfold neutronBoundary
  by_cases hc : step.particleName = "neutron" ∧ step.postStepStatus = G4StepStatus.fGeomBoundary
  · rw [if_pos hc]
    have ha : ¬ (preLogical = fDetector.tankL ∧ postLogical = fDetector.roomL) :=
      fun h => hroom h.2
    have hb : ¬ (preLogical = fDetector.slabL ∧ postLogical = fDetector.roomL) :=
      fun h => hroom h.2
    rw [if_neg ha, if_neg hb]
    intro c hmem
    split_ifs at hmem
    · simp only [List.nil_append, List.mem_singleton] at hmem
      rw [hmem]; rfl
    · simp at hmem
  · rw [if_neg hc]; simp

theorem neutronCapture_no_ntuple (fDetector : DetectorConstruction) (step : G4Step)
    (processName : String) (postLogical : Ptr) :
    ∀ c ∈ neutronCapture fDetector step processName postLogical, c.isNtupleCall = false := by
  unfold neutronCapture
  by_cases hc : step.particleName = "neutron" ∧ processName = "nCapture"
  · rw [if_pos hc]
    intro c hmem
    simp only [List.mem_append] at hmem
    rcases hmem with (hmem | hmem) | hmem <;>
    · split_ifs at hmem
      · simp only [List.mem_singleton] at hmem
        rw [hmem]; rfl
      · simp at hmem
  · rw [if_neg hc]; simp

theorem neutronBoundary_channel (fDetector : DetectorConstruction) (step : G4Step)
    (preLogical postLogical : Ptr) :
    (∀ col v, AnalysisCall.FillNtupleDColumn 4 col v ∉
      neutronBoundary fDetector step preLogical postLogical) ∧
    AnalysisCall.AddNtupleRow 4 ∉ neutronBoundary fDetector step preLogical postLogical := by
  unfold neutronBoundary
  by_cases hc : step.particleName = "neutron" ∧ step.postStepStatus = G4StepStatus.fGeomBoundary
  · rw [if_pos hc]
    split_ifs <;> simp
  · rw [if_neg hc]; simp

theorem ntupleRowsFrom_of_untouched (id : Nat) (a b : List AnalysisCall)
    (hcol : ∀ col v, AnalysisCall.FillNtupleDColumn id col v ∉ a)
    (hrow : AnalysisCall.AddNtupleRow id ∉ a) (row : List (Nat × ℚ)) :
    ntupleRowsFrom id row (a ++ b) = ntupleRowsFrom id row b := by
  induction a with
  | nil => rfl
  | cons c rest ih =>
    have ih1 := ih (fun col v hmem => hcol col v (List.mem_cons_of_mem _ hmem))
      (fun hmem => hrow (List.mem_cons_of_mem _ hmem))
    cases c with
    | FillH1 i v => simpa [ntupleRowsFrom] using ih1
    | FillNtupleDColumn i col v =>
      have hi : i ≠ id := by
        intro h
        exact hcol col v (by rw [h]; exact List.mem_cons_self _ _)
      simpa [ntupleRowsFrom, hi] using ih1
    | AddNtupleRow i =>
      have hi : i ≠ id := by
        intro h
        exact hrow (by rw [h]; exact List.mem_cons_self _ _)
      simpa [ntupleRowsFrom, hi] using ih1

theorem ntupleRows_append_of_untouched (id : Nat) (a b : List AnalysisCall)
    (hcol : ∀ col v, AnalysisCall.FillNtupleDColumn id col v ∉ a)
    (hrow : AnalysisCall.AddNtupleRow id ∉ a) :
    ntupleRows id (a ++ b) = ntupleRows id b :=
  ntupleRowsFrom_of_untouched id a b hcol hrow []

theorem ntupleRows_neutronBoundary (fDetector : DetectorConstruction) (step : G4Step)
    (preLogical postLogical : Ptr) (id : Nat) (h0 : id ≠ 0) (h2 : id ≠ 2) :
    ntupleRows id (neutronBoundary fDetector step preLogical postLogical) = [] := by
  unfold neutronBoundary
  by_cases hc : step.particleName = "neutron" ∧ step.postStepStatus = G4StepStatus.fGeomBoundary
  · rw [if_pos hc]
    split_ifs <;> simp [ntupleRows, ntupleRowsFrom, Ne.symm h0, Ne.symm h2]
  · rw [if_neg hc]; rfl

/-- Claim C1. A step whose pre-step or post-step physical volume is null makes
no analysis-manager call at all: no histogram fill, no tuple column fill and
no tuple row, for every species, process names, step status, energy and
position. -/
theorem C1_unresolved_volume_writes_nothing (fDetector : DetectorConstruction) (step : G4Step)
    (h : step.prePhysical = none ∨ step.postPhysical = none) :
    (UserSteppingAction fDetector step).calls = [] := by
  unfold UserSteppingAction
  cases hp : step.processDefinedStep with
  | none => rfl
  | some processName =>
    rcases h with h | h
    · simp [h]
    · cases hpre : step.prePhysical <;> simp [h]

/-- Witness for claim C1 on a step that leaves the world. -/
theorem C1_unresolved_volume_writes_nothing_witness :
    (UserSteppingAction builtDetector stepLeavingWorld).calls = [] :=
  C1_unresolved_volume_writes_nothing builtDetector stepLeavingWorld (Or.inr rfl)

/-- Claim C2. A step whose two physical volumes are both resolved and both
carry copy number -1 makes no analysis-manager call: no histogram fill, no
tuple column fill, no tuple row. -/
theorem C2_outside_world_writes_nothing (fDetector : DetectorConstruction) (step : G4Step)
    (pre post : G4PVPlacement)
    (hpre : step.prePhysical = some pre) (hpost : step.postPhysical = some post)
    (hpreNo : pre.GetCopyNo = -1) (hpostNo : post.GetCopyNo = -1) :
    (UserSteppingAction fDetector step).calls = [] := by
  unfold UserSteppingAction
  cases hp : step.processDefinedStep with
  | none => rfl
  | some processName => simp [hpre, hpost, hpreNo, hpostNo]

/-- Witness for claim C2 on a step with both points outside the world. -/
theorem C2_outside_world_writes_nothing_witness :
    (UserSteppingAction builtDetector stepOutsideWorld).calls = [] :=
  C2_outside_world_writes_nothing builtDetector stepOutsideWorld outsideWorld outsideWorld
    rfl rfl rfl rfl

/-- Claim C3. With pairwise distinct volume handles, for an event that passes
the two discard checks, has the boundary flag set, ends in the room and starts
in the tank or the slab, of species neutron or gamma: the calls are exactly
the four column fills (x/1000, y/1000, z/1000, E) and one row commit on tuple
channel `ch`, where `ch` is 0 (neutron from tank), 2 (neutron from slab),
1 (gamma from tank) or 3 (gamma from slab); so tuple `ch` gets exactly one row
with these columns, no other tuple gets a row, and at position (1, 2, 3) the
row is (0.001, 0.002, 0.003, E). -/
theorem C3_boundary_row (fDetector : DetectorConstruction) (step : G4Step)
    (pre post : G4PVPlacement) (ch : Nat)
    (hd : distinctHandles fDetector) (hl : labelsPresent step)
    (hpre : step.prePhysical = some pre) (hpost : step.postPhysical = some post)
    (hdisc : ¬ (pre.GetCopyNo = -1 ∧ post.GetCopyNo = -1))
    (hb : step.postStepStatus = G4StepStatus.fGeomBoundary)
    (hroom : post.GetLogicalVolume = fDetector.roomL)
    (hcase :
      (step.particleName = "neutron" ∧ pre.GetLogicalVolume = fDetector.tankL ∧ ch = 0) ∨
      (step.particleName = "neutron" ∧ pre.GetLogicalVolume = fDetector.slabL ∧ ch = 2) ∨
      (step.particleName = "gamma" ∧ pre.GetLogicalVolume = fDetector.tankL ∧ ch = 1) ∨
      (step.particleName = "gamma" ∧ pre.GetLogicalVolume = fDetector.slabL ∧ ch = 3)) :
    (UserSteppingAction fDetector step).fault = none ∧
    (UserSteppingAction fDetector step).calls =
      [AnalysisCall.FillNtupleDColumn ch 0 (step.position.1 / 1000),
       AnalysisCall.FillNtupleDColumn ch 1 (step.position.2.1 / 1000),
       AnalysisCall.FillNtupleDColumn ch 2 (step.position.2.2 / 1000),
       AnalysisCall.FillNtupleDColumn ch 3 step.ekin,
       AnalysisCall.AddNtupleRow ch] ∧
    ntupleRows ch (UserSteppingAction fDetector step).calls =
      [[(0, step.position.1 / 1000), (1, step.position.2.1 / 1000),
        (2, step.position.2.2 / 1000), (3, step.ekin)]] ∧
    (∀ id, id ≠ ch → ntupleRows id (UserSteppingAction fDetector step).calls = []) ∧
    (step.position = (1, 2, 3) →
      ntupleRows ch (UserSteppingAction fDetector step).calls =
        [[(0, 0.001), (1, 0.002), (2, 0.003), (3, step.ekin)]]) := by
  obtain ⟨hproc, hcre⟩ := hl
  obtain ⟨processName, hproc⟩ := Option.isSome_iff_exists.mp hproc
  obtain ⟨h1, h2, h3, h4, h5, h6, h7, h8, h9, h10, h11, h12, h13, h14, h15⟩ :=
    distinctHandles_ne fDetector hd
  have hcalls : (UserSteppingAction fDetector step).fault = none ∧
      (UserSteppingAction fDetector step).calls =
      [AnalysisCall.FillNtupleDColumn ch 0 (step.position.1 / 1000),
       AnalysisCall.FillNtupleDColumn ch 1 (step.position.2.1 / 1000),
       AnalysisCall.FillNtupleDColumn ch 2 (step.position.2.2 / 1000),
       AnalysisCall.FillNtupleDColumn ch 3 step.ekin,
       AnalysisCall.AddNtupleRow ch] := by
    rcases hcase with ⟨hs, hv, rfl⟩ | ⟨hs, hv, rfl⟩ | ⟨hs, hv, rfl⟩ | ⟨hs, hv, rfl⟩
    · rw [calls_of_neutron fDetector step pre post processName hproc hcre hpre hpost hdisc hs]
      simp [neutronBoundary, neutronCapture, neutronInelastic, hs, hb, hv, hroom, h1, h2, h3,
        h8, h9, h1.symm, h6]
    · rw [calls_of_neutron fDetector step pre post processName hproc hcre hpre hpost hdisc hs]
      simp [neutronBoundary, neutronCapture, neutronInelastic, hs, hb, hv, hroom, h2.symm,
        h10, h8, h9, h1.symm, h6]
    · rw [calls_of_gamma fDetector step pre post processName hproc hcre hpre hpost hdisc hs]
      simp [gammaBoundary, hs, hb, hv, hroom, h2]
    · rw [calls_of_gamma fDetector step pre post processName hproc hcre hpre hpost hdisc hs]
      simp [gammaBoundary, hs, hb, hv, hroom, h2.symm]
  obtain ⟨hf, hc⟩ := hcalls
  have hrows : ntupleRows ch (UserSteppingAction fDetector step).calls =
      [[(0, step.position.1 / 1000), (1, step.position.2.1 / 1000),
        (2, step.position.2.2 / 1000), (3, step.ekin)]] := by
    rw [hc]; simp [ntupleRows, ntupleRowsFrom, setColumn]
  refine ⟨hf, hc, hrows, ?_, ?_⟩
  · intro id hid
    rw [hc]
    simp [ntupleRows, ntupleRowsFrom, Ne.symm hid]
  · intro hpos
    rw [hrows, hpos]
    norm_num

/-- Witness for claim C3: the neutron crossing from tank to room at (1, 2, 3)
with energy 5/2 puts the single row (0.001, 0.002, 0.003, 5/2) in tuple 0. -/
theorem C3_boundary_row_witness :
    ntupleRows 0 (UserSteppingAction builtDetector neutronLeavingTank).calls =
      [[(0, 0.001), (1, 0.002), (2, 0.003), (3, 5 / 2)]] :=
  (C3_boundary_row builtDetector neutronLeavingTank (builtPlacement "Tank")
    (builtPlacement "Room") 0 (by decide) ⟨rfl, by decide⟩ rfl rfl (by decide) rfl rfl
    (Or.inl ⟨rfl, rfl, rfl⟩)).2.2.2.2 rfl

/-- Claim C4. With pairwise distinct volume handles, for a neutron event that
passes the two discard checks and whose step-defining process is nCapture,
whatever the pre-step volume and the step status: when the post-step volume is
the detector gas, histogram 2 gets exactly the one sample E and histograms 3
and 4 none; when it is the tank, histogram 3 gets exactly E and 2 and 4 none;
when it is the shield, histogram 4 gets exactly E and 2 and 3 none; and in
each of these cases (indeed whenever the post-step volume is not the room) no
call fills a tuple column or commits a tuple row. -/
theorem C4_capture_histograms (fDetector : DetectorConstruction) (step : G4Step)
    (pre post : G4PVPlacement)
    (hd : distinctHandles fDetector)
    (hproc : step.processDefinedStep = some "nCapture")
    (hcre : step.parentID > 0 → step.creatorProcess.isSome = true)
    (hpre : step.prePhysical = some pre) (hpost : step.postPhysical = some post)
    (hdisc : ¬ (pre.GetCopyNo = -1 ∧ post.GetCopyNo = -1))
    (hn : step.particleName = "neutron") :
    (UserSteppingAction fDetector step).fault = none ∧
    (post.GetLogicalVolume = fDetector.detectorL →
      h1Samples 2 (UserSteppingAction fDetector step).calls = [step.ekin] ∧
      h1Samples 3 (UserSteppingAction fDetector step).calls = [] ∧
      h1Samples 4 (UserSteppingAction fDetector step).calls = []) ∧
    (post.GetLogicalVolume = fDetector.tankL →
      h1Samples 3 (UserSteppingAction fDetector step).calls = [step.ekin] ∧
      h1Samples 2 (UserSteppingAction fDetector step).calls = [] ∧
      h1Samples 4 (UserSteppingAction fDetector step).calls = []) ∧
    (post.GetLogicalVolume = fDetector.polyL →
      h1Samples 4 (UserSteppingAction fDetector step).calls = [step.ekin] ∧
      h1Samples 2 (UserSteppingAction fDetector step).calls = [] ∧
      h1Samples 3 (UserSteppingAction fDetector step).calls = []) ∧
    (post.GetLogicalVolume ≠ fDetector.roomL →
      ∀ c ∈ (UserSteppingAction fDetector step).calls, c.isNtupleCall = false) := by
  obtain ⟨h1, h2, h3, h4, h5, h6, h7, h8, h9, h10, h11, h12, h13, h14, h15⟩ :=
    distinctHandles_ne fDetector hd
  rw [calls_of_neutron fDetector step pre post "nCapture" hproc hcre hpre hpost hdisc hn]
  have hi : neutronInelastic fDetector step "nCapture" post.GetLogicalVolume = [] := by
    simp [neutronInelastic]
  have hb : ∀ id, id ≠ 1 → h1Samples id
      (neutronBoundary fDetector step pre.GetLogicalVolume post.GetLogicalVolume) = [] :=
    fun id hid => h1Samples_neutronBoundary fDetector step _ _ id hid
  simp only [hi, List.append_nil, h1Samples_append, hb 2 (by decide), hb 3 (by decide),
    hb 4 (by decide), List.nil_append]
  refine ⟨trivial, ?_, ?_, ?_, ?_⟩
  · intro hv
    simp [neutronCapture, hn, hv, h1Samples, h4.symm, h15]
  · intro hv
    simp [neutronCapture, hn, hv, h1Samples, h4, h5]
  · intro hv
    simp [neutronCapture, hn, hv, h1Samples, h15.symm, h5.symm]
  · intro hv c hc
    rcases List.mem_append.mp hc with hc | hc
    · exact neutronBoundary_no_ntuple fDetector step _ _ hv c hc
    · exact neutronCapture_no_ntuple fDetector step _ _ c hc

/-- Witness for claim C4: a neutron captured in the detector gas puts its
energy 1/40 in histogram 2 and nothing in histograms 3 and 4. -/
theorem C4_capture_histograms_witness :
    h1Samples 2 (UserSteppingAction builtDetector neutronCapturedInDetector).calls = [1 / 40] ∧
    h1Samples 3 (UserSteppingAction builtDetector neutronCapturedInDetector).calls = [] ∧
    h1Samples 4 (UserSteppingAction builtDetector neutronCapturedInDetector).calls = [] :=
  (C4_capture_histograms builtDetector neutronCapturedInDetector (builtPlacement "probePE")
    (builtPlacement "Detector") (by decide) rfl (by decide) rfl rfl (by decide) rfl).2.1 rfl

/-- Claim C5. For a proton event that passes the two discard checks, whose
pre-step volume is the detector gas and which has a creator process: when the
creator process is neutronInelastic the only call is one fill of histogram 6
with the kinetic energy, so histogram 6 gets exactly that one sample; when the
creator process carries any other name there is no call at all, neither a
histogram fill nor a tuple write. -/
theorem C5_proton_histogram (fDetector : DetectorConstruction) (step : G4Step)
    (pre post : G4PVPlacement) (processName creatorName : String)
    (hproc : step.processDefinedStep = some processName)
    (hcre : step.creatorProcess = some creatorName)
    (hpre : step.prePhysical = some pre) (hpost : step.postPhysical = some post)
    (hdisc : ¬ (pre.GetCopyNo = -1 ∧ post.GetCopyNo = -1))
    (hp : step.particleName = "proton")
    (hdet : pre.GetLogicalVolume = fDetector.detectorL) :
    (UserSteppingAction fDetector step).fault = none ∧
    (creatorName = "neutronInelastic" →
      (UserSteppingAction fDetector step).calls = [AnalysisCall.FillH1 6 step.ekin] ∧
      h1Samples 6 (UserSteppingAction fDetector step).calls = [step.ekin]) ∧
    (creatorName ≠ "neutronInelastic" → (UserSteppingAction fDetector step).calls = []) := by
  rw [calls_of_proton fDetector step pre post processName creatorName hproc hcre hpre hpost
    hdisc hp]
  refine ⟨rfl, ?_, ?_⟩
  · intro hc
    simp [hdet, hc, h1Samples]
  · intro hc
    simp [hc]

/-- Witness for claim C5: the proton created by neutronInelastic puts its
energy 3/5 in histogram 6, the otherwise identical proton created by
hadElastic makes no call. -/
theorem C5_proton_histogram_witness :
    h1Samples 6 (UserSteppingAction builtDetector protonFromInelastic).calls = [3 / 5] ∧
    (UserSteppingAction builtDetector protonFromElastic).calls = [] :=
  ⟨((C5_proton_histogram builtDetector protonFromInelastic (builtPlacement "Detector")
      (builtPlacement "Detector") "hIoni" "neutronInelastic" rfl rfl rfl rfl (by decide) rfl
      rfl).2.1 rfl).2,
   (C5_proton_histogram builtDetector protonFromElastic (builtPlacement "Detector")
      (builtPlacement "Detector") "hIoni" "hadElastic" rfl rfl rfl rfl (by decide) rfl
      rfl).2.2 (by decide)⟩

/-- Claim C6. For a neutron event that passes the two discard checks and whose
step-defining process is neutronInelastic: when the post-step volume is the
detector gas, histogram 5 gets exactly the one sample E and tuple 4 gets
exactly one row, with columns (E, local time); when the post-step volume is
any other volume, histogram 5 gets no sample and no call fills a column of
tuple 4 or commits a row to it. -/
theorem C6_inelastic_in_detector (fDetector : DetectorConstruction) (step : G4Step)
    (pre post : G4PVPlacement)
    (hproc : step.processDefinedStep = some "neutronInelastic")
    (hcre : step.parentID > 0 → step.creatorProcess.isSome = true)
    (hpre : step.prePhysical = some pre) (hpost : step.postPhysical = some post)
    (hdisc : ¬ (pre.GetCopyNo = -1 ∧ post.GetCopyNo = -1))
    (hn : step.particleName = "neutron") :
    (UserSteppingAction fDetector step).fault = none ∧
    (post.GetLogicalVolume = fDetector.detectorL →
      h1Samples 5 (UserSteppingAction fDetector step).calls = [step.ekin] ∧
      ntupleRows 4 (UserSteppingAction fDetector step).calls =
        [[(0, step.ekin), (1, step.localTime)]]) ∧
    (post.GetLogicalVolume ≠ fDetector.detectorL →
      h1Samples 5 (UserSteppingAction fDetector step).calls = [] ∧
      ntupleRows 4 (UserSteppingAction fDetector step).calls = [] ∧
      (∀ col v, AnalysisCall.FillNtupleDColumn 4 col v ∉
        (UserSteppingAction fDetector step).calls) ∧
      AnalysisCall.AddNtupleRow 4 ∉ (UserSteppingAction fDetector step).calls) := by
  rw [calls_of_neutron fDetector step pre post "neutronInelastic" hproc hcre hpre hpost hdisc hn]
  have hc : neutronCapture fDetector step "neutronInelastic" post.GetLogicalVolume = [] := by
    simp [neutronCapture]
  have hb5 := h1Samples_neutronBoundary fDetector step pre.GetLogicalVolume
    post.GetLogicalVolume 5 (by decide)
  have hb4 := ntupleRows_neutronBoundary fDetector step pre.GetLogicalVolume
    post.GetLogicalVolume 4 (by decide) (by decide)
  have hm4 := neutronBoundary_channel fDetector step pre.GetLogicalVolume
    post.GetLogicalVolume
  simp only [hc, List.append_nil, h1Samples_append, hb5, List.nil_append]
  refine ⟨trivial, ?_, ?_⟩
  · intro hv
    refine ⟨by simp [neutronInelastic, hn, hv, h1Samples], ?_⟩
    rw [ntupleRows_append_of_untouched 4 _ _ hm4.1 hm4.2]
    simp [neutronInelastic, hn, hv, ntupleRows, ntupleRowsFrom, setColumn]
  · intro hv
    have hi : neutronInelastic fDetector step "neutronInelastic" post.GetLogicalVolume = [] := by
      simp [neutronInelastic, hv]
    rw [hi, List.append_nil]
    exact ⟨rfl, hb4, hm4.1, hm4.2⟩

/-- Witness for claim C6: the neutron scattering inelastically in the detector
gas puts its energy 1/40 in histogram 5 and the row (1/40, 12) in tuple 4. -/
theorem C6_inelastic_in_detector_witness :
    h1Samples 5 (UserSteppingAction builtDetector neutronInelasticInGas).calls = [1 / 40] ∧
    ntupleRows 4 (UserSteppingAction builtDetector neutronInelasticInGas).calls =
      [[(0, 1 / 40), (1, 12)]] :=
  (C6_inelastic_in_detector builtDetector neutronInelasticInGas (builtPlacement "Detector")
    (builtPlacement "Detector") rfl (by decide) rfl rfl (by decide) rfl).2.1 rfl

/-- Claim C7, evaluated at the failing inputs. A primary proton (no creator
process, parent ID 0) whose step starts in the detector gas, with both volumes
resolved and copy number 0, stops at the null dereference of line 95 instead
of completing with the rule treated as not matching; a step with a null
step-defining process stops at the null dereference of line 63. -/
theorem C7_missing_label_faults :
    primaryProtonInGas.particleName = "proton" ∧
    primaryProtonInGas.creatorProcess = none ∧
    primaryProtonInGas.parentID = 0 ∧
    primaryProtonInGas.prePhysical = some (builtPlacement "Detector") ∧
    (builtPlacement "Detector").GetLogicalVolume = builtDetector.detectorL ∧
    (builtPlacement "Detector").GetCopyNo = 0 ∧
    (UserSteppingAction builtDetector primaryProtonInGas).fault =
      some Fault.nullCreatorProcessProton ∧
    stepWithoutProcess.processDefinedStep = none ∧
    (UserSteppingAction builtDetector stepWithoutProcess).fault =
      some Fault.nullProcessDefinedStep := by
  refine ⟨rfl, rfl, rfl, rfl, rfl, rfl, ?_, rfl, rfl⟩
  decide

/-- Claim C8. When the lookup of `materialChoice` fails (null pointer),
`SetMaterial` returns with the object unchanged, in particular `fMaterial`,
with the logical volume store and so the material of the world volume
unchanged, with the stale-physics mark unchanged, and with one diagnostic
naming the material appended to the console. When the lookup yields a
material other than the current one, `fMaterial` becomes that material, the
physics tables are marked modified, and no diagnostic is written. -/
theorem C8_SetMaterial_failed_lookup (nist : NistDatabase) (materialChoice : String)
    (d : DetectorConstruction) (e : Engine) :
    ((FindOrBuildMaterial nist materialChoice e).1 = 0 →
      (SetMaterial nist materialChoice d e).1 = d ∧
      (SetMaterial nist materialChoice d e).1.fMaterial = d.fMaterial ∧
      (SetMaterial nist materialChoice d e).2.logicalVolumeStore = e.logicalVolumeStore ∧
      (SetMaterial nist materialChoice d e).2.materialOf d.worldL = e.materialOf d.worldL ∧
      (SetMaterial nist materialChoice d e).2.physicsModified = e.physicsModified ∧
      (SetMaterial nist materialChoice d e).2.cout =
        e.cout ++ [Diagnostic.materialNotFound materialChoice]) ∧
    ((FindOrBuildMaterial nist materialChoice e).1 ≠ 0 →
      (FindOrBuildMaterial nist materialChoice e).1 ≠ d.fMaterial →
      (SetMaterial nist materialChoice d e).1.fMaterial =
        (FindOrBuildMaterial nist materialChoice e).1 ∧
      (SetMaterial nist materialChoice d e).2.physicsModified = true ∧
      (SetMaterial nist materialChoice d e).2.cout = e.cout) := by
  have hstore : (FindOrBuildMaterial nist materialChoice e).2.logicalVolumeStore =
      e.logicalVolumeStore ∧
      (FindOrBuildMaterial nist materialChoice e).2.physicsModified = e.physicsModified ∧
      (FindOrBuildMaterial nist materialChoice e).2.cout = e.cout := by
    unfold FindOrBuildMaterial
    cases e.materialTable.find? (fun mat => mat.name = materialChoice) with
    | some mat => exact ⟨rfl, rfl, rfl⟩
    | none =>
      by_cases hin : materialChoice ∈ nist.materials
      · simp [hin, newG4Material]
      · simp [hin]
  obtain ⟨hlv, hphys, hcout⟩ := hstore
  constructor
  · intro hnull
    have hset : SetMaterial nist materialChoice d e =
        (d, { (FindOrBuildMaterial nist materialChoice e).2 with
              cout := (FindOrBuildMaterial nist materialChoice e).2.cout ++
                [Diagnostic.materialNotFound materialChoice] }) := by
      simp [SetMaterial, hnull]
    rw [hset]
    refine ⟨rfl, rfl, hlv, ?_, hphys, ?_⟩
    · simp only [Engine.materialOf, hlv]
    · simp only [hcout]
  · intro hfound hdiff
    have hdiff2 : ¬ d.fMaterial = (FindOrBuildMaterial nist materialChoice e).1 :=
      fun h => hdiff h.symm
    unfold SetMaterial
    simp only [ne_eq, hfound, not_false_eq_true, if_true, hdiff2]
    refine ⟨trivial, trivial, ?_⟩
    by_cases hw : d.worldL = 0
    · simp [hw, hcout]
    · simp [hw, hcout, Engine.SetLogicalMaterial]

/-- Witness for claim C8 on the built detector: an unknown key leaves
`fMaterial` and the stale-physics mark as they were and writes the diagnostic;
the key G4_Galactic, which resolves to a new material, replaces `fMaterial`
and sets the mark. -/
theorem C8_SetMaterial_failed_lookup_witness :
    ((SetMaterial sampleNist "G4_UNOBTAINIUM" builtDetector builtEngine).1.fMaterial =
        builtDetector.fMaterial ∧
      (SetMaterial sampleNist "G4_UNOBTAINIUM" builtDetector builtEngine).2.physicsModified =
        builtEngine.physicsModified ∧
      (SetMaterial sampleNist "G4_UNOBTAINIUM" builtDetector builtEngine).2.cout =
        builtEngine.cout ++ [Diagnostic.materialNotFound "G4_UNOBTAINIUM"]) ∧
    ((SetMaterial sampleNist "G4_Galactic" builtDetector builtEngine).1.fMaterial =
        (FindOrBuildMaterial sampleNist "G4_Galactic" builtEngine).1 ∧
      (SetMaterial sampleNist "G4_Galactic" builtDetector builtEngine).2.physicsModified = true) :=
  ⟨⟨((C8_SetMaterial_failed_lookup sampleNist "G4_UNOBTAINIUM" builtDetector
        builtEngine).1 (by decide)).2.1,
     ((C8_SetMaterial_failed_lookup sampleNist "G4_UNOBTAINIUM" builtDetector
        builtEngine).1 (by decide)).2.2.2.2.1,
     ((C8_SetMaterial_failed_lookup sampleNist "G4_UNOBTAINIUM" builtDetector
        builtEngine).1 (by decide)).2.2.2.2.2⟩,
   ⟨((C8_SetMaterial_failed_lookup sampleNist "G4_Galactic" builtDetector
        builtEngine).2 (by decide) (by decide)).1,
     ((C8_SetMaterial_failed_lookup sampleNist "G4_Galactic" builtDetector
        builtEngine).2 (by decide) (by decide)).2.1⟩⟩

/-- Claim C9, evaluated at the failing input: the constructor followed by two
`Construct()` calls in succession. The solid, logical volume and physical
volume stores hold after the second call what they held after the first (same
solids, same volume names in the same order, same sizes), but the material,
element and isotope tables are not cleaned: PressurizedHe3 and B-Poly, the
element Helium and the isotope He3 are each registered a second time. -/
theorem C9_rebuild_duplicates_materials :
    rebuiltEngine.solidStore = builtEngine.solidStore ∧
    rebuiltEngine.logicalVolumeStore.map (fun lv => (lv.name, lv.solid)) =
      builtEngine.logicalVolumeStore.map (fun lv => (lv.name, lv.solid)) ∧
    rebuiltEngine.physicalVolumeStore.map (fun pv => (pv.pName, pv.tlate, pv.pCopyNo)) =
      builtEngine.physicalVolumeStore.map (fun pv => (pv.pName, pv.tlate, pv.pCopyNo)) ∧
    builtEngine.physicalVolumeStore.map (fun pv => pv.pName) =
      ["World", "Room", "Slab", "Tank", "Chamber", "probePE", "Detector", "poly", "source"] ∧
    builtEngine.materialTable.map (fun mat => mat.name) =
      ["Water_ts", "HeavyWater", "graphite", "G4_AIR", "G4_CONCRETE", "G4_WATER",
       "G4_POLYETHYLENE", "PressurizedHe3", "B-Poly"] ∧
    rebuiltEngine.materialTable.map (fun mat => mat.name) =
      ["Water_ts", "HeavyWater", "graphite", "G4_AIR", "G4_CONCRETE", "G4_WATER",
       "G4_POLYETHYLENE", "PressurizedHe3", "B-Poly", "PressurizedHe3", "B-Poly"] ∧
    builtEngine.elementTable.map (fun el => el.name) =
      ["TS_H_of_Water", "Oxygen", "TS_D_of_Heavy_Water", "TS_C_of_Graphite", "Helium", "B"] ∧
    rebuiltEngine.elementTable.map (fun el => el.name) =
      ["TS_H_of_Water", "Oxygen", "TS_D_of_Heavy_Water", "TS_C_of_Graphite", "Helium", "B",
       "Helium"] ∧
    builtEngine.isotopeTable.map (fun iso => iso.name) = ["H2", "C12", "He3"] ∧
    rebuiltEngine.isotopeTable.map (fun iso => iso.name) = ["H2", "C12", "He3", "He3"] := by
  refine ⟨rfl, rfl, rfl, ?_, ?_, ?_, ?_, ?_, ?_, ?_⟩ <;> decide

/-! ## Theorems: the constructed hierarchy -/

theorem FindOrBuildMaterial_eq (nist : NistDatabase) (name : String) (e : Engine) :
    (FindOrBuildMaterial nist name e).2 =
      { e with materialTable := e.materialTable ++ builtEntries nist name e.materialTable e.nextPtr,
               nextPtr := e.nextPtr + (builtEntries nist name e.materialTable e.nextPtr).length } := by
  unfold FindOrBuildMaterial builtEntries
  cases e.materialTable.find? (fun mat => mat.name = name) with
  | some mat => simp
  | none =>
    by_cases hin : name ∈ nist.materials
    · simp [hin, newG4Material]
    · simp [hin]

theorem FindOrBuildElement_frame (nist : NistDatabase) (symb : String) (e : Engine) :
    (FindOrBuildElement nist symb e).nextPtr = e.nextPtr ∧
    (FindOrBuildElement nist symb e).solidStore = e.solidStore ∧
    (FindOrBuildElement nist symb e).logicalVolumeStore = e.logicalVolumeStore ∧
    (FindOrBuildElement nist symb e).physicalVolumeStore = e.physicalVolumeStore ∧
    (FindOrBuildElement nist symb e).materialTable = e.materialTable := by
  unfold FindOrBuildElement
  cases e.elementTable.find? (fun el => el.symbol = symb) with
  | some el => exact ⟨rfl, rfl, rfl, rfl, rfl⟩
  | none =>
    by_cases hin : symb ∈ nist.elements
    · simp [hin, newG4Element]
    · simp [hin]

theorem FindOrBuildElement_nextPtr (nist : NistDatabase) (symb : String) (e : Engine) :
    (FindOrBuildElement nist symb e).nextPtr = e.nextPtr :=
  (FindOrBuildElement_frame nist symb e).1

theorem FindOrBuildElement_solidStore (nist : NistDatabase) (symb : String) (e : Engine) :
    (FindOrBuildElement nist symb e).solidStore = e.solidStore :=
  (FindOrBuildElement_frame nist symb e).2.1

theorem FindOrBuildElement_logicalVolumeStore (nist : NistDatabase) (symb : String)
    (e : Engine) :
    (FindOrBuildElement nist symb e).logicalVolumeStore = e.logicalVolumeStore :=
  (FindOrBuildElement_frame nist symb e).2.2.1

theorem FindOrBuildElement_physicalVolumeStore (nist : NistDatabase) (symb : String)
    (e : Engine) :
    (FindOrBuildElement nist symb e).physicalVolumeStore = e.physicalVolumeStore :=
  (FindOrBuildElement_frame nist symb e).2.2.2.1

theorem FindOrBuildElement_materialTable (nist : NistDatabase) (symb : String) (e : Engine) :
    (FindOrBuildElement nist symb e).materialTable = e.materialTable :=
  (FindOrBuildElement_frame nist symb e).2.2.2.2

theorem ConstructVolumes_logicalView (nist : NistDatabase) (d : DetectorConstruction)
    (e : Engine) :
    (ConstructVolumes nist d e).2.2.logicalVolumeStore.map
        (fun lv => (lv.self, (lv.name, lv.solid))) =
      [((ConstructVolumes nist d e).2.1.worldL,
          ("World", G4VSolid.G4Box "World" (d.fBoxX / 2) (d.fBoxY / 2) (d.fBoxZ / 2))),
       ((ConstructVolumes nist d e).2.1.roomL,
          ("Room", G4VSolid.G4Box "Room" (d.fRoom_x / 2) (d.fRoom_y / 2) (d.fRoom_z / 2))),
       ((ConstructVolumes nist d e).2.1.slabL,
          ("Slab", G4VSolid.G4Box "Slab" (d.fRoom_x / 2) (d.fRoom_y / 2) (d.fSlab_z / 2))),
       ((ConstructVolumes nist d e).2.1.tankL,
          ("Tank", G4VSolid.G4Box "tank" (d.fTank_x / 2) (d.fTank_y / 2) (d.fTank_z / 2))),
       ((ConstructVolumes nist d e).2.1.chamberL,
          ("Chamber",
            G4VSolid.G4Box "Chamber" (d.fChamber_x / 2) (d.fChamber_y / 2) (d.fChamber_z / 2))),
       ((ConstructVolumes nist d e).2.1.probePeL,
          ("Probe_PE", G4VSolid.G4Sphere "Sphere" (0 * cm) (10 * cm) 0 360 0 360)),
       ((ConstructVolumes nist d e).2.1.detectorL,
          ("detector",
            G4VSolid.G4Tubs "detector" 0 (d.detectorDiam / 2) (d.detectorLen / 2) 0 360)),
       ((ConstructVolumes nist d e).2.1.polyL,
          ("poly", G4VSolid.G4Box "poly" (d.fPoly_x / 2) (d.fPoly_y / 2) (d.fPoly_z / 2))),
       ((ConstructVolumes nist d e).2.1.nSourceL,
          ("source",
            G4VSolid.G4Box "source" (d.fNeutronSource_x / 2)
              ((d.fNeutronSource_y + 15 * cm) / 2) (d.fNeutronSource_z / 2)))] := by
  simp only [ConstructVolumes, newSolid, newG4LogicalVolume, newG4PVPlacement, newG4Material,
    newG4Isotope, newG4Element, cleanupOldGeometry, FindOrBuildMaterial_eq,
    FindOrBuildElement_nextPtr, FindOrBuildElement_logicalVolumeStore,
    List.map_append, List.map_cons, List.map_nil, List.nil_append, List.cons_append,
    List.append_assoc]

theorem ConstructVolumes_physicalView (nist : NistDatabase) (d : DetectorConstruction)
    (e : Engine) :
    (ConstructVolumes nist d e).2.2.physicalVolumeStore.map
        (fun pv => (pv.pName, pv.tlate, pv.pCurrentLogical, pv.pMotherLogical, pv.pCopyNo)) =
      [("World", (0, 0, 0), (ConstructVolumes nist d e).2.1.worldL, 0, 0),
       ("Room", (0, 0, 0), (ConstructVolumes nist d e).2.1.roomL,
          (ConstructVolumes nist d e).2.1.worldL, 0),
       ("Slab", (0, 0, d.fGap + d.fSlab_z / 2 - d.fBoxZ / 2),
          (ConstructVolumes nist d e).2.1.slabL, (ConstructVolumes nist d e).2.1.roomL, 0),
       ("Tank", (0, 0, -d.fRoom_z / 2 + d.fGap + d.fSlab_z + d.fTank_z / 2),
          (ConstructVolumes nist d e).2.1.tankL, (ConstructVolumes nist d e).2.1.roomL, 0),
       ("Chamber", (0, 0, -d.fTank_z / 2 + d.fChamber_z / 2),
          (ConstructVolumes nist d e).2.1.chamberL, (ConstructVolumes nist d e).2.1.tankL, 0),
       ("probePE", (0, d.fChamber_y / 2 - 15 * cm, -6.5 * cm),
          (ConstructVolumes nist d e).2.1.probePeL, (ConstructVolumes nist d e).2.1.chamberL, 0),
       ("Detector", (0, 0, 0),
          (ConstructVolumes nist d e).2.1.detectorL, (ConstructVolumes nist d e).2.1.probePeL, 0),
       ("poly", (0, -d.fChamber_y / 2 + d.fPoly_y / 2 + 2.5 * cm,
            -d.fChamber_z / 2 + d.fPoly_z / 2),
          (ConstructVolumes nist d e).2.1.polyL, (ConstructVolumes nist d e).2.1.chamberL, 0),
       ("source", (0, d.fPoly_y / 2 - (d.fNeutronSource_y + 15 * cm) / 2, d.fSourceOffset_z),
          (ConstructVolumes nist d e).2.1.nSourceL, (ConstructVolumes nist d e).2.1.polyL, 0)] := by
  simp only [ConstructVolumes, newSolid, newG4LogicalVolume, newG4PVPlacement, newG4Material,
    newG4Isotope, newG4Element, cleanupOldGeometry, FindOrBuildMaterial_eq,
    FindOrBuildElement_nextPtr, FindOrBuildElement_physicalVolumeStore,
    List.map_append, List.map_cons, List.map_nil, List.nil_append, List.cons_append,
    List.append_assoc]

theorem ConstructVolumes_handles_ordered (nist : NistDatabase) (d : DetectorConstruction)
    (e : Engine) (hptr : 0 < e.nextPtr) :
    0 < (ConstructVolumes nist d e).2.1.worldL ∧
    (ConstructVolumes nist d e).2.1.worldL < (ConstructVolumes nist d e).2.1.roomL ∧
    (ConstructVolumes nist d e).2.1.roomL < (ConstructVolumes nist d e).2.1.slabL ∧
    (ConstructVolumes nist d e).2.1.slabL < (ConstructVolumes nist d e).2.1.tankL ∧
    (ConstructVolumes nist d e).2.1.tankL < (ConstructVolumes nist d e).2.1.chamberL ∧
    (ConstructVolumes nist d e).2.1.chamberL < (ConstructVolumes nist d e).2.1.probePeL ∧
    (ConstructVolumes nist d e).2.1.probePeL < (ConstructVolumes nist d e).2.1.detectorL ∧
    (ConstructVolumes nist d e).2.1.detectorL < (ConstructVolumes nist d e).2.1.polyL ∧
    (ConstructVolumes nist d e).2.1.polyL < (ConstructVolumes nist d e).2.1.nSourceL := by
  simp only [ConstructVolumes, newSolid, newG4LogicalVolume, newG4PVPlacement, newG4Material,
    newG4Isotope, newG4Element, cleanupOldGeometry, FindOrBuildMaterial_eq,
    FindOrBuildElement_nextPtr]
  simp only [Ptr] at hptr ⊢
  omega

theorem SetMaterial_keeps_dimensions (nist : NistDatabase) (materialChoice : String)
    (d : DetectorConstruction) (e : Engine) :
    (SetMaterial nist materialChoice d e).1 =
      { d with fMaterial := (SetMaterial nist materialChoice d e).1.fMaterial } := by
  unfold SetMaterial
  by_cases h1 : (FindOrBuildMaterial nist materialChoice e).1 ≠ 0
  · by_cases h2 : d.fMaterial ≠ (FindOrBuildMaterial nist materialChoice e).1
    · simp only [if_pos h1, if_pos h2]
    · simp only [if_pos h1, if_neg h2]
  · simp only [if_neg h1]

theorem SetMaterial_nextPtr (nist : NistDatabase) (materialChoice : String)
    (d : DetectorConstruction) (e : Engine) :
    e.nextPtr ≤ (SetMaterial nist materialChoice d e).2.nextPtr := by
  unfold SetMaterial
  by_cases h1 : (FindOrBuildMaterial nist materialChoice e).1 ≠ 0
  · by_cases h2 : d.fMaterial ≠ (FindOrBuildMaterial nist materialChoice e).1
    · by_cases h3 : d.worldL ≠ 0
      · simp only [if_pos h1, if_pos h2, if_pos h3, FindOrBuildMaterial_eq,
          Engine.SetLogicalMaterial]
        exact Nat.le_add_right _ _
      · simp only [if_pos h1, if_pos h2, if_neg h3, FindOrBuildMaterial_eq]
        exact Nat.le_add_right _ _
    · simp only [if_pos h1, if_neg h2, FindOrBuildMaterial_eq]
      exact Nat.le_add_right _ _
  · simp only [if_neg h1, FindOrBuildMaterial_eq]
    exact Nat.le_add_right _ _

theorem create_nextPtr (nist : NistDatabase) (e : Engine) :
    0 < (DetectorConstruction.create nist e).2.nextPtr := by
  unfold DetectorConstruction.create
  refine lt_of_lt_of_le ?_ (SetMaterial_nextPtr nist "G4_AIR" _ _)
  simp [DefineMaterials, newG4Material, newG4Element, newG4Isotope]

theorem create_dimensions (nist : NistDatabase) (e : Engine) :
    (DetectorConstruction.create nist e).1.fBoxX = 3000 ∧
    (DetectorConstruction.create nist e).1.fBoxY = 3000 ∧
    (DetectorConstruction.create nist e).1.fBoxZ = 3000 ∧
    (DetectorConstruction.create nist e).1.fRoom_x = 3000 ∧
    (DetectorConstruction.create nist e).1.fRoom_y = 3000 ∧
    (DetectorConstruction.create nist e).1.fRoom_z = 3000 ∧
    (DetectorConstruction.create nist e).1.fSlab_z = 175 ∧
    (DetectorConstruction.create nist e).1.fGap = 100 ∧
    (DetectorConstruction.create nist e).1.fTank_x = 1575 ∧
    (DetectorConstruction.create nist e).1.fTank_y = 2025 ∧
    (DetectorConstruction.create nist e).1.fTank_z = 1080 ∧
    (DetectorConstruction.create nist e).1.fChamber_x = 675 ∧
    (DetectorConstruction.create nist e).1.fChamber_y = 1125 ∧
    (DetectorConstruction.create nist e).1.fChamber_z = 540 ∧
    (DetectorConstruction.create nist e).1.fPoly_x = 420 ∧
    (DetectorConstruction.create nist e).1.fPoly_y = 675 ∧
    (DetectorConstruction.create nist e).1.fPoly_z = 295 ∧
    (DetectorConstruction.create nist e).1.fNeutronSource_x = 120 ∧
    (DetectorConstruction.create nist e).1.fNeutronSource_y = 375 ∧
    (DetectorConstruction.create nist e).1.fNeutronSource_z = 120 ∧
    (DetectorConstruction.create nist e).1.fSourceOffset_z = 125 / 2 ∧
    (DetectorConstruction.create nist e).1.detectorDiam = 25 ∧
    (DetectorConstruction.create nist e).1.detectorLen = 80 := by
  unfold DetectorConstruction.create
  simp only []
  rw [SetMaterial_keeps_dimensions]
  simp only []
  norm_num [m, cm, mm]

theorem beq_false_of_lt {a b : Nat} (h : b < a) : (a == b) = false := by
  simp only [beq_eq_false_iff_ne, ne_eq]
  omega

theorem lookup_ordered_keys {α : Type} (p0 p1 p2 p3 p4 p5 p6 p7 p8 : Nat)
    (v0 v1 v2 v3 v4 v5 v6 v7 v8 : α)
    (h : 0 < p0 ∧ p0 < p1 ∧ p1 < p2 ∧ p2 < p3 ∧ p3 < p4 ∧ p4 < p5 ∧ p5 < p6 ∧ p6 < p7 ∧
      p7 < p8) :
    List.lookup p0 [(p0, v0), (p1, v1), (p2, v2), (p3, v3), (p4, v4), (p5, v5), (p6, v6),
      (p7, v7), (p8, v8)] = some v0 ∧
    List.lookup p1 [(p0, v0), (p1, v1), (p2, v2), (p3, v3), (p4, v4), (p5, v5), (p6, v6),
      (p7, v7), (p8, v8)] = some v1 ∧
    List.lookup p2 [(p0, v0), (p1, v1), (p2, v2), (p3, v3), (p4, v4), (p5, v5), (p6, v6),
      (p7, v7), (p8, v8)] = some v2 ∧
    List.lookup p3 [(p0, v0), (p1, v1), (p2, v2), (p3, v3), (p4, v4), (p5, v5), (p6, v6),
      (p7, v7), (p8, v8)] = some v3 ∧
    List.lookup p4 [(p0, v0), (p1, v1), (p2, v2), (p3, v3), (p4, v4), (p5, v5), (p6, v6),
      (p7, v7), (p8, v8)] = some v4 ∧
    List.lookup p5 [(p0, v0), (p1, v1), (p2, v2), (p3, v3), (p4, v4), (p5, v5), (p6, v6),
      (p7, v7), (p8, v8)] = some v5 ∧
    List.lookup p6 [(p0, v0), (p1, v1), (p2, v2), (p3, v3), (p4, v4), (p5, v5), (p6, v6),
      (p7, v7), (p8, v8)] = some v6 ∧
    List.lookup p7 [(p0, v0), (p1, v1), (p2, v2), (p3, v3), (p4, v4), (p5, v5), (p6, v6),
      (p7, v7), (p8, v8)] = some v7 ∧
    List.lookup p8 [(p0, v0), (p1, v1), (p2, v2), (p3, v3), (p4, v4), (p5, v5), (p6, v6),
      (p7, v7), (p8, v8)] = some v8 := by
  obtain ⟨h0, h1, h2, h3, h4, h5, h6, h7, h8⟩ := h
  have e10 := @beq_false_of_lt p1 p0 h1
  have e20 := @beq_false_of_lt p2 p0 (by omega)
  have e21 := @beq_false_of_lt p2 p1 h2
  have e30 := @beq_false_of_lt p3 p0 (by omega)
  have e31 := @beq_false_of_lt p3 p1 (by omega)
  have e32 := @beq_false_of_lt p3 p2 h3
  have e40 := @beq_false_of_lt p4 p0 (by omega)
  have e41 := @beq_false_of_lt p4 p1 (by omega)
  have e42 := @beq_false_of_lt p4 p2 (by omega)
  have e43 := @beq_false_of_lt p4 p3 h4
  have e50 := @beq_false_of_lt p5 p0 (by omega)
  have e51 := @beq_false_of_lt p5 p1 (by omega)
  have e52 := @beq_false_of_lt p5 p2 (by omega)
  have e53 := @beq_false_of_lt p5 p3 (by omega)
  have e54 := @beq_false_of_lt p5 p4 h5
  have e60 := @beq_false_of_lt p6 p0 (by omega)
  have e61 := @beq_false_of_lt p6 p1 (by omega)
  have e62 := @beq_false_of_lt p6 p2 (by omega)
  have e63 := @beq_false_of_lt p6 p3 (by omega)
  have e64 := @beq_false_of_lt p6 p4 (by omega)
  have e65 := @beq_false_of_lt p6 p5 h6
  have e70 := @beq_false_of_lt p7 p0 (by omega)
  have e71 := @beq_false_of_lt p7 p1 (by omega)
  have e72 := @beq_false_of_lt p7 p2 (by omega)
  have e73 := @beq_false_of_lt p7 p3 (by omega)
  have e74 := @beq_false_of_lt p7 p4 (by omega)
  have e75 := @beq_false_of_lt p7 p5 (by omega)
  have e76 := @beq_false_of_lt p7 p6 h7
  have e80 := @beq_false_of_lt p8 p0 (by omega)
  have e81 := @beq_false_of_lt p8 p1 (by omega)
  have e82 := @beq_false_of_lt p8 p2 (by omega)
  have e83 := @beq_false_of_lt p8 p3 (by omega)
  have e84 := @beq_false_of_lt p8 p4 (by omega)
  have e85 := @beq_false_of_lt p8 p5 (by omega)
  have e86 := @beq_false_of_lt p8 p6 (by omega)
  have e87 := @beq_false_of_lt p8 p7 h8
  simp only [List.lookup, beq_self_eq_true, e10, e20, e21, e30, e31, e32, e40, e41, e42, e43,
    e50, e51, e52, e53, e54, e60, e61, e62, e63, e64, e65, e70, e71, e72, e73, e74, e75, e76,
    e80, e81, e82, e83, e84, e85, e86, e87, and_self]

theorem ConstructVolumes_logicalAt (nist : NistDatabase) (d : DetectorConstruction)
    (e : Engine) (hptr : 0 < e.nextPtr) :
    (ConstructVolumes nist d e).2.2.logicalAt (ConstructVolumes nist d e).2.1.worldL =
      some ("World", G4VSolid.G4Box "World" (d.fBoxX / 2) (d.fBoxY / 2) (d.fBoxZ / 2)) ∧
    (ConstructVolumes nist d e).2.2.logicalAt (ConstructVolumes nist d e).2.1.roomL =
      some ("Room", G4VSolid.G4Box "Room" (d.fRoom_x / 2) (d.fRoom_y / 2) (d.fRoom_z / 2)) ∧
    (ConstructVolumes nist d e).2.2.logicalAt (ConstructVolumes nist d e).2.1.slabL =
      some ("Slab", G4VSolid.G4Box "Slab" (d.fRoom_x / 2) (d.fRoom_y / 2) (d.fSlab_z / 2)) ∧
    (ConstructVolumes nist d e).2.2.logicalAt (ConstructVolumes nist d e).2.1.tankL =
      some ("Tank", G4VSolid.G4Box "tank" (d.fTank_x / 2) (d.fTank_y / 2) (d.fTank_z / 2)) ∧
    (ConstructVolumes nist d e).2.2.logicalAt (ConstructVolumes nist d e).2.1.chamberL =
      some ("Chamber",
        G4VSolid.G4Box "Chamber" (d.fChamber_x / 2) (d.fChamber_y / 2) (d.fChamber_z / 2)) ∧
    (ConstructVolumes nist d e).2.2.logicalAt (ConstructVolumes nist d e).2.1.probePeL =
      some ("Probe_PE", G4VSolid.G4Sphere "Sphere" (0 * cm) (10 * cm) 0 360 0 360) ∧
    (ConstructVolumes nist d e).2.2.logicalAt (ConstructVolumes nist d e).2.1.detectorL =
      some ("detector",
        G4VSolid.G4Tubs "detector" 0 (d.detectorDiam / 2) (d.detectorLen / 2) 0 360) ∧
    (ConstructVolumes nist d e).2.2.logicalAt (ConstructVolumes nist d e).2.1.polyL =
      some ("poly", G4VSolid.G4Box "poly" (d.fPoly_x / 2) (d.fPoly_y / 2) (d.fPoly_z / 2)) ∧
    (ConstructVolumes nist d e).2.2.logicalAt (ConstructVolumes nist d e).2.1.nSourceL =
      some ("source",
        G4VSolid.G4Box "source" (d.fNeutronSource_x / 2)
          ((d.fNeutronSource_y + 15 * cm) / 2) (d.fNeutronSource_z / 2)) := by
  unfold Engine.logicalAt
  rw [ConstructVolumes_logicalView]
  exact lookup_ordered_keys _ _ _ _ _ _ _ _ _ _ _ _ _ _ _ _ _ _
    (ConstructVolumes_handles_ordered nist d e hptr)

theorem lookup_null_ordered_keys {α : Type} (p0 p1 p2 p3 p4 p5 p6 p7 p8 : Nat)
    (v0 v1 v2 v3 v4 v5 v6 v7 v8 : α)
    (h : 0 < p0 ∧ p0 < p1 ∧ p1 < p2 ∧ p2 < p3 ∧ p3 < p4 ∧ p4 < p5 ∧ p5 < p6 ∧ p6 < p7 ∧
      p7 < p8) :
    List.lookup 0 [(p0, v0), (p1, v1), (p2, v2), (p3, v3), (p4, v4), (p5, v5), (p6, v6),
      (p7, v7), (p8, v8)] = none := by
  obtain ⟨h0, h1, h2, h3, h4, h5, h6, h7, h8⟩ := h
  have e0 : (0 == p0) = false := by simp only [beq_eq_false_iff_ne, ne_eq]; omega
  have e1 : (0 == p1) = false := by simp only [beq_eq_false_iff_ne, ne_eq]; omega
  have e2 : (0 == p2) = false := by simp only [beq_eq_false_iff_ne, ne_eq]; omega
  have e3 : (0 == p3) = false := by simp only [beq_eq_false_iff_ne, ne_eq]; omega
  have e4 : (0 == p4) = false := by simp only [beq_eq_false_iff_ne, ne_eq]; omega
  have e5 : (0 == p5) = false := by simp only [beq_eq_false_iff_ne, ne_eq]; omega
  have e6 : (0 == p6) = false := by simp only [beq_eq_false_iff_ne, ne_eq]; omega
  have e7 : (0 == p7) = false := by simp only [beq_eq_false_iff_ne, ne_eq]; omega
  have e8 : (0 == p8) = false := by simp only [beq_eq_false_iff_ne, ne_eq]; omega
  simp only [List.lookup, e0, e1, e2, e3, e4, e5, e6, e7, e8]

theorem ConstructVolumes_logicalAt_null (nist : NistDatabase) (d : DetectorConstruction)
    (e : Engine) (hptr : 0 < e.nextPtr) :
    (ConstructVolumes nist d e).2.2.logicalAt 0 = none := by
  unfold Engine.logicalAt
  rw [ConstructVolumes_logicalView]
  exact lookup_null_ordered_keys _ _ _ _ _ _ _ _ _ _ _ _ _ _ _ _ _ _
    (ConstructVolumes_handles_ordered nist d e hptr)

theorem ConstructVolumes_placement_cases (nist : NistDatabase) (d : DetectorConstruction)
    (e : Engine) (pv : G4PVPlacement)
    (h : pv ∈ (ConstructVolumes nist d e).2.2.physicalVolumeStore) :
    (pv.pName = "World" ∧ pv.tlate = (0, 0, 0) ∧
      pv.pCurrentLogical = (ConstructVolumes nist d e).2.1.worldL ∧
      pv.pMotherLogical = 0 ∧ pv.pCopyNo = 0) ∨
    (pv.pName = "Room" ∧ pv.tlate = (0, 0, 0) ∧
      pv.pCurrentLogical = (ConstructVolumes nist d e).2.1.roomL ∧
      pv.pMotherLogical = (ConstructVolumes nist d e).2.1.worldL ∧ pv.pCopyNo = 0) ∨
    (pv.pName = "Slab" ∧ pv.tlate = (0, 0, d.fGap + d.fSlab_z / 2 - d.fBoxZ / 2) ∧
      pv.pCurrentLogical = (ConstructVolumes nist d e).2.1.slabL ∧
      pv.pMotherLogical = (ConstructVolumes nist d e).2.1.roomL ∧ pv.pCopyNo = 0) ∨
    (pv.pName = "Tank" ∧
      pv.tlate = (0, 0, -d.fRoom_z / 2 + d.fGap + d.fSlab_z + d.fTank_z / 2) ∧
      pv.pCurrentLogical = (ConstructVolumes nist d e).2.1.tankL ∧
      pv.pMotherLogical = (ConstructVolumes nist d e).2.1.roomL ∧ pv.pCopyNo = 0) ∨
    (pv.pName = "Chamber" ∧ pv.tlate = (0, 0, -d.fTank_z / 2 + d.fChamber_z / 2) ∧
      pv.pCurrentLogical = (ConstructVolumes nist d e).2.1.chamberL ∧
      pv.pMotherLogical = (ConstructVolumes nist d e).2.1.tankL ∧ pv.pCopyNo = 0) ∨
    (pv.pName = "probePE" ∧ pv.tlate = (0, d.fChamber_y / 2 - 15 * cm, -6.5 * cm) ∧
      pv.pCurrentLogical = (ConstructVolumes nist d e).2.1.probePeL ∧
      pv.pMotherLogical = (ConstructVolumes nist d e).2.1.chamberL ∧ pv.pCopyNo = 0) ∨
    (pv.pName = "Detector" ∧ pv.tlate = (0, 0, 0) ∧
      pv.pCurrentLogical = (ConstructVolumes nist d e).2.1.detectorL ∧
      pv.pMotherLogical = (ConstructVolumes nist d e).2.1.probePeL ∧ pv.pCopyNo = 0) ∨
    (pv.pName = "poly" ∧
      pv.tlate = (0, -d.fChamber_y / 2 + d.fPoly_y / 2 + 2.5 * cm,
        -d.fChamber_z / 2 + d.fPoly_z / 2) ∧
      pv.pCurrentLogical = (ConstructVolumes nist d e).2.1.polyL ∧
      pv.pMotherLogical = (ConstructVolumes nist d e).2.1.chamberL ∧ pv.pCopyNo = 0) ∨
    (pv.pName = "source" ∧
      pv.tlate = (0, d.fPoly_y / 2 - (d.fNeutronSource_y + 15 * cm) / 2, d.fSourceOffset_z) ∧
      pv.pCurrentLogical = (ConstructVolumes nist d e).2.1.nSourceL ∧
      pv.pMotherLogical = (ConstructVolumes nist d e).2.1.polyL ∧ pv.pCopyNo = 0) := by
  have hview := List.mem_map_of_mem
    (fun pv : G4PVPlacement =>
      (pv.pName, pv.tlate, pv.pCurrentLogical, pv.pMotherLogical, pv.pCopyNo)) h
  rw [ConstructVolumes_physicalView] at hview
  simpa only [List.mem_cons, Prod.mk.injEq, List.mem_singleton, List.not_mem_nil, or_false]
    using hview

theorem ConstructVolumes_names (nist : NistDatabase) (d : DetectorConstruction) (e : Engine) :
    (ConstructVolumes nist d e).2.2.physicalVolumeStore.map (fun pv => pv.pName) =
      ["World", "Room", "Slab", "Tank", "Chamber", "probePE", "Detector", "poly", "source"] := by
  have h := congrArg (List.map (fun v : String × (ℚ × ℚ × ℚ) × Ptr × Ptr × Int => v.1))
    (ConstructVolumes_physicalView nist d e)
  simpa only [List.map_map, Function.comp_def, List.map_cons, List.map_nil] using h

theorem ConstructVolumes_placement_unique (nist : NistDatabase) (d : DetectorConstruction)
    (e : Engine) (a b : G4PVPlacement)
    (ha : a ∈ (ConstructVolumes nist d e).2.2.physicalVolumeStore)
    (hb : b ∈ (ConstructVolumes nist d e).2.2.physicalVolumeStore)
    (hname : a.pName = b.pName) : a = b := by
  have hnodup : ((ConstructVolumes nist d e).2.2.physicalVolumeStore.map
      (fun pv => pv.pName)).Nodup := by
    rw [ConstructVolumes_names]
    decide
  exact List.inj_on_of_nodup_map hnodup ha hb hname

theorem box_within_box (K : Type) [LinearOrderedField K] (n1 n2 : String)
    (a b c A B C tx ty tz : ℚ)
    (hx : -A ≤ tx - a ∧ tx + a ≤ A) (hy : -B ≤ ty - b ∧ ty + b ≤ B)
    (hz : -C ≤ tz - c ∧ tz + c ≤ C) :
    ∀ p : K × K × K, (G4VSolid.G4Box n1 a b c).Inside p →
      (G4VSolid.G4Box n2 A B C).Inside (translate (tx, ty, tz) p) := by
  intro p hp
  simp only [G4VSolid.Inside, translate] at hp ⊢
  obtain ⟨h1, h2, h3, h4, h5, h6⟩ := hp
  have kx1 := (Rat.cast_le (K := K)).mpr hx.1
  have kx2 := (Rat.cast_le (K := K)).mpr hx.2
  have ky1 := (Rat.cast_le (K := K)).mpr hy.1
  have ky2 := (Rat.cast_le (K := K)).mpr hy.2
  have kz1 := (Rat.cast_le (K := K)).mpr hz.1
  have kz2 := (Rat.cast_le (K := K)).mpr hz.2
  push_cast at kx1 kx2 ky1 ky2 kz1 kz2
  refine ⟨?_, ?_, ?_, ?_, ?_, ?_⟩ <;> linarith

theorem coordinate_bounds_of_ball {K : Type} [LinearOrderedField K] (x y z r : K) (hr : 0 ≤ r)
    (h : x ^ 2 + y ^ 2 + z ^ 2 ≤ r ^ 2) :
    (-r ≤ x ∧ x ≤ r) ∧ (-r ≤ y ∧ y ≤ r) ∧ (-r ≤ z ∧ z ≤ r) := by
  have hx : x ^ 2 ≤ r ^ 2 := by nlinarith [sq_nonneg y, sq_nonneg z]
  have hy : y ^ 2 ≤ r ^ 2 := by nlinarith [sq_nonneg x, sq_nonneg z]
  have hz : z ^ 2 ≤ r ^ 2 := by nlinarith [sq_nonneg x, sq_nonneg y]
  exact ⟨abs_le_of_sq_le_sq' hx hr, abs_le_of_sq_le_sq' hy hr, abs_le_of_sq_le_sq' hz hr⟩

theorem ball_within_box (K : Type) [LinearOrderedField K] (n1 n2 : String)
    (rmin rmax sphi dphi stheta dtheta A B C tx ty tz : ℚ) (hr : 0 ≤ rmax)
    (hx : -A ≤ tx - rmax ∧ tx + rmax ≤ A) (hy : -B ≤ ty - rmax ∧ ty + rmax ≤ B)
    (hz : -C ≤ tz - rmax ∧ tz + rmax ≤ C) :
    ∀ p : K × K × K, (G4VSolid.G4Sphere n1 rmin rmax sphi dphi stheta dtheta).Inside p →
      (G4VSolid.G4Box n2 A B C).Inside (translate (tx, ty, tz) p) := by
  intro p hp
  simp only [G4VSolid.Inside, translate] at hp ⊢
  have kr : (0 : K) ≤ (rmax : K) := by exact_mod_cast hr
  obtain ⟨⟨h1, h2⟩, ⟨h3, h4⟩, ⟨h5, h6⟩⟩ :=
    coordinate_bounds_of_ball p.1 p.2.1 p.2.2 (rmax : K) kr hp.2
  have kx1 := (Rat.cast_le (K := K)).mpr hx.1
  have kx2 := (Rat.cast_le (K := K)).mpr hx.2
  have ky1 := (Rat.cast_le (K := K)).mpr hy.1
  have ky2 := (Rat.cast_le (K := K)).mpr hy.2
  have kz1 := (Rat.cast_le (K := K)).mpr hz.1
  have kz2 := (Rat.cast_le (K := K)).mpr hz.2
  push_cast at kx1 kx2 ky1 ky2 kz1 kz2
  refine ⟨?_, ?_, ?_, ?_, ?_, ?_⟩ <;> linarith

theorem tube_within_ball (K : Type) [LinearOrderedField K] (n1 n2 : String)
    (rmin rho dz sphi dphi Rmax sphi2 dphi2 stheta2 dtheta2 : ℚ)
    (hfit : rho ^ 2 + dz ^ 2 ≤ Rmax ^ 2) :
    ∀ p : K × K × K, (G4VSolid.G4Tubs n1 rmin rho dz sphi dphi).Inside p →
      (G4VSolid.G4Sphere n2 0 Rmax sphi2 dphi2 stheta2 dtheta2).Inside
        (translate (0, 0, 0) p) := by
  intro p hp
  simp only [G4VSolid.Inside, translate] at hp ⊢
  obtain ⟨-, h2, h3, h4⟩ := hp
  have kfit := (Rat.cast_le (K := K)).mpr hfit
  push_cast at kfit ⊢
  have hzz : p.2.2 ^ 2 ≤ (dz : K) ^ 2 := by
    nlinarith [mul_nonneg (sub_nonneg.mpr h4) (sub_nonneg.mpr (neg_le.mp h3))]
  constructor
  · nlinarith [sq_nonneg p.1, sq_nonneg p.2.1, sq_nonneg p.2.2]
  · nlinarith

theorem boxes_disjoint_along_z (K : Type) [LinearOrderedField K] (n1 n2 : String)
    (a1 b1 c1 a2 b2 c2 tx1 ty1 tz1 tx2 ty2 tz2 : ℚ)
    (h : tz1 + c1 ≤ tz2 - c2 ∨ tz2 + c2 ≤ tz1 - c1) :
    ∀ q : K × K × K,
      ¬ ((G4VSolid.G4Box n1 a1 b1 c1).Interior (untranslate (tx1, ty1, tz1) q) ∧
         (G4VSolid.G4Box n2 a2 b2 c2).Interior (untranslate (tx2, ty2, tz2) q)) := by
  intro q hq
  simp only [G4VSolid.Interior, untranslate] at hq
  obtain ⟨⟨-, -, -, -, h5, h6⟩, ⟨-, -, -, -, k5, k6⟩⟩ := hq
  rcases h with h | h
  · have kh := (Rat.cast_le (K := K)).mpr h
    push_cast at kh
    linarith
  · have kh := (Rat.cast_le (K := K)).mpr h
    push_cast at kh
    linarith

theorem ball_box_disjoint_along_y (K : Type) [LinearOrderedField K] (n1 n2 : String)
    (rmin rmax sphi dphi stheta dtheta a b c tx1 ty1 tz1 tx2 ty2 tz2 : ℚ) (hr : 0 ≤ rmax)
    (h : ty2 + b ≤ ty1 - rmax) :
    ∀ q : K × K × K,
      ¬ ((G4VSolid.G4Sphere n1 rmin rmax sphi dphi stheta dtheta).Interior
            (untranslate (tx1, ty1, tz1) q) ∧
         (G4VSolid.G4Box n2 a b c).Interior (untranslate (tx2, ty2, tz2) q)) := by
  intro q hq
  simp only [G4VSolid.Interior, untranslate] at hq
  obtain ⟨⟨-, hs⟩, ⟨-, -, -, k4, -, -⟩⟩ := hq
  have kr : (0 : K) ≤ (rmax : K) := by exact_mod_cast hr
  obtain ⟨-, ⟨h3, -⟩, -⟩ :=
    coordinate_bounds_of_ball (q.1 - (tx1 : K)) (q.2.1 - (ty1 : K)) (q.2.2 - (tz1 : K))
      (rmax : K) kr (le_of_lt hs)
  have kh := (Rat.cast_le (K := K)).mpr h
  push_cast at kh
  linarith

theorem interiorsDisjoint_symm (K : Type) [LinearOrderedField K] (e : Engine)
    (a b : G4PVPlacement) (h : e.interiorsDisjoint K a b) : e.interiorsDisjoint K b a := by
  obtain ⟨sa, sb, ha, hb, hq⟩ := h
  exact ⟨sb, sa, hb, ha, fun q hboth => hq q ⟨hboth.2, hboth.1⟩⟩

theorem constructed_within_mother (K : Type) [LinearOrderedField K] (nist : NistDatabase)
    (e : Engine) :
    ∀ pv ∈ (constructedEngine nist e).physicalVolumeStore, pv.pName ≠ "World" →
      (constructedEngine nist e).withinMother K pv := by
  intro pv hpv hname
  have hptr := create_nextPtr nist e
  obtain ⟨dBoxX, dBoxY, dBoxZ, dRoomX, dRoomY, dRoomZ, dSlabZ, dGap, dTankX, dTankY, dTankZ,
    dChX, dChY, dChZ, dPolyX, dPolyY, dPolyZ, dSrcX, dSrcY, dSrcZ, dOff, dDiam, dLen⟩ :=
    create_dimensions nist e
  obtain ⟨lW, lR, lS, lT, lC, lM, lD, lP, lN⟩ :=
    ConstructVolumes_logicalAt nist (DetectorConstruction.create nist e).1
      (DetectorConstruction.create nist e).2 hptr
  unfold constructedEngine at hpv ⊢
  rcases ConstructVolumes_placement_cases nist _ _ pv hpv with
    ⟨hn, ht, hc, hm, -⟩ | ⟨hn, ht, hc, hm, -⟩ | ⟨hn, ht, hc, hm, -⟩ | ⟨hn, ht, hc, hm, -⟩ |
    ⟨hn, ht, hc, hm, -⟩ | ⟨hn, ht, hc, hm, -⟩ | ⟨hn, ht, hc, hm, -⟩ | ⟨hn, ht, hc, hm, -⟩ |
    ⟨hn, ht, hc, hm, -⟩
  · exact absurd hn hname
  · refine ⟨_, _, by rw [hc]; exact lR, by rw [hm]; exact lW, ?_, ?_, ?_⟩
    · exact trivial
    · exact trivial
    · rw [ht]
      exact box_within_box K _ _ _ _ _ _ _ _ _ _ _
        (by norm_num [dBoxX, dRoomX]) (by norm_num [dBoxY, dRoomY]) (by norm_num [dBoxZ, dRoomZ])
  · refine ⟨_, _, by rw [hc]; exact lS, by rw [hm]; exact lR, ?_, ?_, ?_⟩
    · exact trivial
    · exact trivial
    · rw [ht]
      exact box_within_box K _ _ _ _ _ _ _ _ _ _ _
        (by norm_num [dRoomX]) (by norm_num [dRoomY])
        (by norm_num [dBoxZ, dRoomZ, dSlabZ, dGap])
  · refine ⟨_, _, by rw [hc]; exact lT, by rw [hm]; exact lR, ?_, ?_, ?_⟩
    · exact trivial
    · exact trivial
    · rw [ht]
      exact box_within_box K _ _ _ _ _ _ _ _ _ _ _
        (by norm_num [dRoomX, dTankX]) (by norm_num [dRoomY, dTankY])
        (by norm_num [dRoomZ, dSlabZ, dGap, dTankZ])
  · refine ⟨_, _, by rw [hc]; exact lC, by rw [hm]; exact lT, ?_, ?_, ?_⟩
    · exact trivial
    · exact trivial
    · rw [ht]
      exact box_within_box K _ _ _ _ _ _ _ _ _ _ _
        (by norm_num [dTankX, dChX]) (by norm_num [dTankY, dChY])
        (by norm_num [dTankZ, dChZ])
  · refine ⟨_, _, by rw [hc]; exact lM, by rw [hm]; exact lC, ?_, ?_, ?_⟩
    · simp only [G4VSolid.fullAngles]
      norm_num
    · exact trivial
    · rw [ht]
      exact ball_within_box K _ _ _ _ _ _ _ _ _ _ _ _ _ _ (by norm_num [cm, mm])
        (by norm_num [dChX, cm, mm]) (by norm_num [dChY, cm, mm])
        (by norm_num [dChZ, cm, mm])
  · refine ⟨_, _, by rw [hc]; exact lD, by rw [hm]; exact lM, ?_, ?_, ?_⟩
    · simp only [G4VSolid.fullAngles]
      norm_num
    · simp only [G4VSolid.fullAngles]
      norm_num
    · rw [ht]
      have hzero : (0 : ℚ) * cm = 0 := zero_mul cm
      rw [hzero]
      exact tube_within_ball K _ _ _ _ _ _ _ _ _ _ _ _ (by norm_num [dDiam, dLen, cm, mm])
  · refine ⟨_, _, by rw [hc]; exact lP, by rw [hm]; exact lC, ?_, ?_, ?_⟩
    · exact trivial
    · exact trivial
    · rw [ht]
      exact box_within_box K _ _ _ _ _ _ _ _ _ _ _
        (by norm_num [dChX, dPolyX]) (by norm_num [dChY, dPolyY, cm, mm])
        (by norm_num [dChZ, dPolyZ])
  · refine ⟨_, _, by rw [hc]; exact lN, by rw [hm]; exact lP, ?_, ?_, ?_⟩
    · exact trivial
    · exact trivial
    · rw [ht]
      exact box_within_box K _ _ _ _ _ _ _ _ _ _ _
        (by norm_num [dPolyX, dSrcX]) (by norm_num [dPolyY, dSrcY, cm, mm])
        (by norm_num [dPolyZ, dSrcZ, dOff])

theorem constructed_siblings_disjoint (K : Type) [LinearOrderedField K] (nist : NistDatabase)
    (e : Engine) :
    ∀ a ∈ (constructedEngine nist e).physicalVolumeStore,
    ∀ b ∈ (constructedEngine nist e).physicalVolumeStore,
      a ≠ b → a.pMotherLogical = b.pMotherLogical →
      (constructedEngine nist e).interiorsDisjoint K a b := by
  intro a ha b hb hab hmo
  have hptr := create_nextPtr nist e
  obtain ⟨dBoxX, dBoxY, dBoxZ, dRoomX, dRoomY, dRoomZ, dSlabZ, dGap, dTankX, dTankY, dTankZ,
    dChX, dChY, dChZ, dPolyX, dPolyY, dPolyZ, dSrcX, dSrcY, dSrcZ, dOff, dDiam, dLen⟩ :=
    create_dimensions nist e
  obtain ⟨lW, lR, lS, lT, lC, lM, lD, lP, lN⟩ :=
    ConstructVolumes_logicalAt nist (DetectorConstruction.create nist e).1
      (DetectorConstruction.create nist e).2 hptr
  have hord := ConstructVolumes_handles_ordered nist (DetectorConstruction.create nist e).1
    (DetectorConstruction.create nist e).2 hptr
  have hslabTank : ∀ a b : G4PVPlacement,
      a.tlate = (0, 0, (DetectorConstruction.create nist e).1.fGap +
        (DetectorConstruction.create nist e).1.fSlab_z / 2 -
        (DetectorConstruction.create nist e).1.fBoxZ / 2) →
      a.pCurrentLogical = (ConstructVolumes nist (DetectorConstruction.create nist e).1
        (DetectorConstruction.create nist e).2).2.1.slabL →
      b.tlate = (0, 0, -(DetectorConstruction.create nist e).1.fRoom_z / 2 +
        (DetectorConstruction.create nist e).1.fGap +
        (DetectorConstruction.create nist e).1.fSlab_z +
        (DetectorConstruction.create nist e).1.fTank_z / 2) →
      b.pCurrentLogical = (ConstructVolumes nist (DetectorConstruction.create nist e).1
        (DetectorConstruction.create nist e).2).2.1.tankL →
      (ConstructVolumes nist (DetectorConstruction.create nist e).1
        (DetectorConstruction.create nist e).2).2.2.interiorsDisjoint K a b := by
    intro a b hta hca htb hcb
    refine ⟨_, _, by rw [hca]; exact lS, by rw [hcb]; exact lT, ?_⟩
    rw [hta, htb]
    exact boxes_disjoint_along_z K _ _ _ _ _ _ _ _ _ _ _ _ _ _
      (Or.inl (by norm_num [dBoxZ, dRoomZ, dSlabZ, dGap, dTankZ]))
  have hprobePoly : ∀ a b : G4PVPlacement,
      a.tlate = (0, (DetectorConstruction.create nist e).1.fChamber_y / 2 - 15 * cm,
        -6.5 * cm) →
      a.pCurrentLogical = (ConstructVolumes nist (DetectorConstruction.create nist e).1
        (DetectorConstruction.create nist e).2).2.1.probePeL →
      b.tlate = (0, -(DetectorConstruction.create nist e).1.fChamber_y / 2 +
          (DetectorConstruction.create nist e).1.fPoly_y / 2 + 2.5 * cm,
        -(DetectorConstruction.create nist e).1.fChamber_z / 2 +
          (DetectorConstruction.create nist e).1.fPoly_z / 2) →
      b.pCurrentLogical = (ConstructVolumes nist (DetectorConstruction.create nist e).1
        (DetectorConstruction.create nist e).2).2.1.polyL →
      (ConstructVolumes nist (DetectorConstruction.create nist e).1
        (DetectorConstruction.create nist e).2).2.2.interiorsDisjoint K a b := by
    intro a b hta hca htb hcb
    refine ⟨_, _, by rw [hca]; exact lM, by rw [hcb]; exact lP, ?_⟩
    rw [hta, htb]
    exact ball_box_disjoint_along_y K _ _ _ _ _ _ _ _ _ _ _ _ _ _ _ _ _
      (by norm_num [cm, mm]) (by norm_num [dChY, dPolyY, cm, mm])
  unfold constructedEngine at ha hb ⊢
  simp only [Ptr] at hord
  rcases ConstructVolumes_placement_cases nist _ _ a ha with
    ⟨hna, hta, hca, hma, -⟩ | ⟨hna, hta, hca, hma, -⟩ | ⟨hna, hta, hca, hma, -⟩ |
    ⟨hna, hta, hca, hma, -⟩ | ⟨hna, hta, hca, hma, -⟩ | ⟨hna, hta, hca, hma, -⟩ |
    ⟨hna, hta, hca, hma, -⟩ | ⟨hna, hta, hca, hma, -⟩ | ⟨hna, hta, hca, hma, -⟩ <;>
  rcases ConstructVolumes_placement_cases nist _ _ b hb with
    ⟨hnb, htb, hcb, hmb, -⟩ | ⟨hnb, htb, hcb, hmb, -⟩ | ⟨hnb, htb, hcb, hmb, -⟩ |
    ⟨hnb, htb, hcb, hmb, -⟩ | ⟨hnb, htb, hcb, hmb, -⟩ | ⟨hnb, htb, hcb, hmb, -⟩ |
    ⟨hnb, htb, hcb, hmb, -⟩ | ⟨hnb, htb, hcb, hmb, -⟩ | ⟨hnb, htb, hcb, hmb, -⟩ <;>
  first
  | exact absurd (ConstructVolumes_placement_unique nist _ _ a b ha hb (hna.trans hnb.symm)) hab
  | (exfalso
     rw [hma, hmb] at hmo
     simp only [Ptr] at hmo
     omega)
  | exact hslabTank a b hta hca htb hcb
  | exact interiorsDisjoint_symm K _ b a (hslabTank b a htb hcb hta hca)
  | exact hprobePoly a b hta hca htb hcb
  | exact interiorsDisjoint_symm K _ b a (hprobePoly b a htb hcb hta hca)

theorem UserSteppingAction_eq_ruleTable (fDetector : DetectorConstruction) (step : G4Step)
    (processName : String) (pre post : G4PVPlacement)
    (hproc : step.processDefinedStep = some processName)
    (hpre : step.prePhysical = some pre) (hpost : step.postPhysical = some post)
    (hdisc : ¬ (pre.GetCopyNo = -1 ∧ post.GetCopyNo = -1)) :
    UserSteppingAction fDetector step = ruleTable fDetector step processName pre post := by
  unfold UserSteppingAction ruleTable
  simp only [hproc, hpre, hpost]
  rw [if_neg hdisc]

theorem box_within_box_iff (K : Type) [LinearOrderedField K] (n1 n2 : String)
    (a b c A B C : ℚ) (ha : 0 ≤ a) (hb : 0 ≤ b) (hc : 0 ≤ c) :
    (∀ p : K × K × K, (G4VSolid.G4Box n1 a b c).Inside p →
      (G4VSolid.G4Box n2 A B C).Inside (translate (0, 0, 0) p)) ↔ a ≤ A ∧ b ≤ B ∧ c ≤ C := by
  constructor
  · intro h
    have ka : (0 : K) ≤ (a : K) := by exact_mod_cast ha
    have kb : (0 : K) ≤ (b : K) := by exact_mod_cast hb
    have kc : (0 : K) ≤ (c : K) := by exact_mod_cast hc
    have hcorner := h ((a : K), (b : K), (c : K))
      (by simp only [G4VSolid.Inside]
          refine ⟨?_, ?_, ?_, ?_, ?_, ?_⟩ <;> linarith)
    simp only [G4VSolid.Inside, translate] at hcorner
    obtain ⟨-, h2, -, h4, -, h6⟩ := hcorner
    push_cast at h2 h4 h6
    rw [add_zero] at h2 h4 h6
    exact ⟨by exact_mod_cast h2, by exact_mod_cast h4, by exact_mod_cast h6⟩
  · intro h
    exact box_within_box K n1 n2 a b c A B C 0 0 0
      ⟨by linarith [h.1], by linarith [h.1]⟩ ⟨by linarith [h.2.1], by linarith [h.2.1]⟩
      ⟨by linarith [h.2.2], by linarith [h.2.2]⟩

theorem constructed_tree (nist : NistDatabase) (e : Engine) :
    (constructedEngine nist e).physicalVolumeStore.map
        (fun pv => (pv.pName,
          ((constructedEngine nist e).logicalAt pv.pMotherLogical).map (fun lv => lv.1))) =
      [("World", none), ("Room", some "World"), ("Slab", some "Room"), ("Tank", some "Room"),
       ("Chamber", some "Tank"), ("probePE", some "Chamber"), ("Detector", some "Probe_PE"),
       ("poly", some "Chamber"), ("source", some "poly")] := by
  have hptr := create_nextPtr nist e
  obtain ⟨lW, lR, lS, lT, lC, lM, lD, lP, lN⟩ :=
    ConstructVolumes_logicalAt nist (DetectorConstruction.create nist e).1
      (DetectorConstruction.create nist e).2 hptr
  have l0 := ConstructVolumes_logicalAt_null nist (DetectorConstruction.create nist e).1
      (DetectorConstruction.create nist e).2 hptr
  unfold constructedEngine
  have h := congrArg
    (List.map (fun v : String × (ℚ × ℚ × ℚ) × Ptr × Ptr × Int =>
      (v.1, ((ConstructVolumes nist (DetectorConstruction.create nist e).1
        (DetectorConstruction.create nist e).2).2.2.logicalAt v.2.2.2.1).map (fun lv => lv.1))))
    (ConstructVolumes_physicalView nist (DetectorConstruction.create nist e).1
      (DetectorConstruction.create nist e).2)
  simp only [List.map_map, Function.comp_def, List.map_cons, List.map_nil, lW, lR, lS, lT, lC,
    lM, lD, lP, lN, l0, Option.map_some', Option.map_none'] at h
  exact h

/-- Claim C11. With the dimensions set by the constructor (exact arithmetic,
cm = 10 mm, m = 1000 mm), for every materials database, every engine state
the constructor starts from and every ordered field `K` of coordinates, the
hierarchy built by `ConstructVolumes` is a containment tree with no overlaps:
the mother of each placement is as listed (Room in World; Slab and Tank in
Room; Chamber in Tank; probePE and poly in Chamber; Detector in Probe_PE;
source in poly); the moderator is a full sphere of radius 100 mm; every
placed solid other than the World lies within the solid of its mother at its
placement translation; and two distinct placements with the same mother (Slab
and Tank, probePE and poly) have no interior point in common. -/
theorem C11_containment_tree (K : Type) [LinearOrderedField K] (nist : NistDatabase)
    (e : Engine) :
    (constructedEngine nist e).physicalVolumeStore.map
        (fun pv => (pv.pName,
          ((constructedEngine nist e).logicalAt pv.pMotherLogical).map (fun lv => lv.1))) =
      [("World", none), ("Room", some "World"), ("Slab", some "Room"), ("Tank", some "Room"),
       ("Chamber", some "Tank"), ("probePE", some "Chamber"), ("Detector", some "Probe_PE"),
       ("poly", some "Chamber"), ("source", some "poly")] ∧
    (constructedEngine nist e).logicalAt (constructedDetector nist e).probePeL =
      some ("Probe_PE", G4VSolid.G4Sphere "Sphere" 0 100 0 360 0 360) ∧
    (∀ pv ∈ (constructedEngine nist e).physicalVolumeStore, pv.pName ≠ "World" →
      (constructedEngine nist e).withinMother K pv) ∧
    (∀ a ∈ (constructedEngine nist e).physicalVolumeStore,
     ∀ b ∈ (constructedEngine nist e).physicalVolumeStore,
      a ≠ b → a.pMotherLogical = b.pMotherLogical →
      (constructedEngine nist e).interiorsDisjoint K a b) := by
  refine ⟨constructed_tree nist e, ?_, constructed_within_mother K nist e,
    constructed_siblings_disjoint K nist e⟩
  have hM := (ConstructVolumes_logicalAt nist (DetectorConstruction.create nist e).1
    (DetectorConstruction.create nist e).2 (create_nextPtr nist e)).2.2.2.2.2.1
  unfold constructedEngine constructedDetector
  rw [hM]
  norm_num [cm, mm]

/-- Witness for claim C11 on the built detector with rational coordinates: the
detector tube lies within the moderator sphere, and the slab and the tank,
both placed in the room, have disjoint interiors. -/
theorem C11_containment_tree_witness :
    builtEngine.withinMother ℚ (builtPlacement "Detector") ∧
    builtEngine.interiorsDisjoint ℚ (builtPlacement "Slab") (builtPlacement "Tank") :=
  ⟨(C11_containment_tree ℚ sampleNist Engine.startup).2.2.1 (builtPlacement "Detector")
      (List.mem_of_find?_eq_some
        (rfl : builtEngine.physicalNamed "Detector" = some (builtPlacement "Detector")))
      (by decide),
   (C11_containment_tree ℚ sampleNist Engine.startup).2.2.2 (builtPlacement "Slab")
      (List.mem_of_find?_eq_some
        (rfl : builtEngine.physicalNamed "Slab" = some (builtPlacement "Slab")))
      (builtPlacement "Tank")
      (List.mem_of_find?_eq_some
        (rfl : builtEngine.physicalNamed "Tank" = some (builtPlacement "Tank")))
      (fun h => absurd (congrArg G4PVPlacement.pName h) (by decide))
      (by decide)⟩

theorem room_within_world_iff (K : Type) [LinearOrderedField K] (nist : NistDatabase)
    (d : DetectorConstruction) (e : Engine) (hptr : 0 < e.nextPtr)
    (hx : 0 ≤ d.fRoom_x) (hy : 0 ≤ d.fRoom_y) (hz : 0 ≤ d.fRoom_z) :
    ∃ pv ∈ (ConstructVolumes nist d e).2.2.physicalVolumeStore,
      pv.pName = "Room" ∧
      pv.pMotherLogical = (ConstructVolumes nist d e).2.1.worldL ∧
      ((ConstructVolumes nist d e).2.2.withinMother K pv ↔
        d.fRoom_x ≤ d.fBoxX ∧ d.fRoom_y ≤ d.fBoxY ∧ d.fRoom_z ≤ d.fBoxZ) ∧
      ∀ other ∈ (ConstructVolumes nist d e).2.2.physicalVolumeStore,
        other.pName = "Room" → other = pv := by
  obtain ⟨lW, lR, -⟩ := ConstructVolumes_logicalAt nist d e hptr
  have hroom : "Room" ∈ (ConstructVolumes nist d e).2.2.physicalVolumeStore.map
      (fun pv => pv.pName) := by
    rw [ConstructVolumes_names]; decide
  obtain ⟨pv, hmem, hname⟩ := List.mem_map.mp hroom
  have hname : pv.pName = "Room" := hname
  have hcase : pv.tlate = (0, 0, 0) ∧
      pv.pCurrentLogical = (ConstructVolumes nist d e).2.1.roomL ∧
      pv.pMotherLogical = (ConstructVolumes nist d e).2.1.worldL := by
    rcases ConstructVolumes_placement_cases nist d e pv hmem with
      ⟨hn, -⟩ | ⟨-, ht, hc, hm, -⟩ | ⟨hn, -⟩ | ⟨hn, -⟩ | ⟨hn, -⟩ | ⟨hn, -⟩ | ⟨hn, -⟩ |
      ⟨hn, -⟩ | ⟨hn, -⟩
    · exact absurd (hname.symm.trans hn) (by decide)
    · exact ⟨ht, hc, hm⟩
    · exact absurd (hname.symm.trans hn) (by decide)
    · exact absurd (hname.symm.trans hn) (by decide)
    · exact absurd (hname.symm.trans hn) (by decide)
    · exact absurd (hname.symm.trans hn) (by decide)
    · exact absurd (hname.symm.trans hn) (by decide)
    · exact absurd (hname.symm.trans hn) (by decide)
    · exact absurd (hname.symm.trans hn) (by decide)
  obtain ⟨ht, hc, hm⟩ := hcase
  refine ⟨pv, hmem, hname, hm, ?_, ?_⟩
  · have hbox := box_within_box_iff K "Room" "World" (d.fRoom_x / 2) (d.fRoom_y / 2)
      (d.fRoom_z / 2) (d.fBoxX / 2) (d.fBoxY / 2) (d.fBoxZ / 2)
      (by linarith) (by linarith) (by linarith)
    have harith : (d.fRoom_x / 2 ≤ d.fBoxX / 2 ∧ d.fRoom_y / 2 ≤ d.fBoxY / 2 ∧
        d.fRoom_z / 2 ≤ d.fBoxZ / 2) ↔
        (d.fRoom_x ≤ d.fBoxX ∧ d.fRoom_y ≤ d.fBoxY ∧ d.fRoom_z ≤ d.fBoxZ) := by
      constructor
      · rintro ⟨h1, h2, h3⟩
        exact ⟨by linarith, by linarith, by linarith⟩
      · rintro ⟨h1, h2, h3⟩
        exact ⟨by linarith, by linarith, by linarith⟩
    rw [← harith, ← hbox]
    constructor
    · rintro ⟨s, ms, hs, hms, -, -, hall⟩
      rw [hc, lR] at hs
      rw [hm, lW] at hms
      rw [← Option.some.inj hs, ← Option.some.inj hms, ht] at hall
      exact hall
    · intro hall
      refine ⟨_, _, by rw [hc]; exact lR, by rw [hm]; exact lW, ?_, ?_, ?_⟩
      · exact trivial
      · exact trivial
      · rw [ht]
        exact hall
  · intro other hother hoName
    exact ConstructVolumes_placement_unique nist d e other pv hother hmem
      (hoName.trans hname.symm)

/-- Claim C12. `SetSize(x, y, z)` replaces `fBoxX`, `fBoxY`, `fBoxZ` and
nothing else of the object, so after the constructor and `SetSize` the room
extents are still 3 m; and in the hierarchy that `ConstructVolumes` then
builds there is exactly one placement named Room, its mother is the World
volume, and its box lies within the World box if and only if x, y and z are
all at least 3 m. -/
theorem C12_SetSize_room_in_world (K : Type) [LinearOrderedField K] (nist : NistDatabase)
    (e : Engine) (x y z : ℚ) :
    (∀ (d : DetectorConstruction) (e0 : Engine),
      (SetSize x y z d e0).1 = { d with fBoxX := x, fBoxY := y, fBoxZ := z }) ∧
    (SetSize x y z (DetectorConstruction.create nist e).1
        (DetectorConstruction.create nist e).2).1.fRoom_x = 3 * m ∧
    (SetSize x y z (DetectorConstruction.create nist e).1
        (DetectorConstruction.create nist e).2).1.fRoom_y = 3 * m ∧
    (SetSize x y z (DetectorConstruction.create nist e).1
        (DetectorConstruction.create nist e).2).1.fRoom_z = 3 * m ∧
    ∃ pv ∈ (constructedAfterSetSize nist e x y z).2.2.physicalVolumeStore,
      pv.pName = "Room" ∧
      pv.pMotherLogical = (constructedAfterSetSize nist e x y z).2.1.worldL ∧
      ((constructedAfterSetSize nist e x y z).2.2.withinMother K pv ↔
        3 * m ≤ x ∧ 3 * m ≤ y ∧ 3 * m ≤ z) ∧
      ∀ other ∈ (constructedAfterSetSize nist e x y z).2.2.physicalVolumeStore,
        other.pName = "Room" → other = pv := by
  obtain ⟨-, -, -, dRoomX, dRoomY, dRoomZ, -⟩ := create_dimensions nist e
  have hm : (3 : ℚ) * m = 3000 := by norm_num [m, mm]
  have rx : (SetSize x y z (DetectorConstruction.create nist e).1
      (DetectorConstruction.create nist e).2).1.fRoom_x = 3 * m := by
    rw [hm]; exact dRoomX
  have ry : (SetSize x y z (DetectorConstruction.create nist e).1
      (DetectorConstruction.create nist e).2).1.fRoom_y = 3 * m := by
    rw [hm]; exact dRoomY
  have rz : (SetSize x y z (DetectorConstruction.create nist e).1
      (DetectorConstruction.create nist e).2).1.fRoom_z = 3 * m := by
    rw [hm]; exact dRoomZ
  have bx : (SetSize x y z (DetectorConstruction.create nist e).1
      (DetectorConstruction.create nist e).2).1.fBoxX = x := rfl
  have bY : (SetSize x y z (DetectorConstruction.create nist e).1
      (DetectorConstruction.create nist e).2).1.fBoxY = y := rfl
  have bz : (SetSize x y z (DetectorConstruction.create nist e).1
      (DetectorConstruction.create nist e).2).1.fBoxZ = z := rfl
  have hptr : 0 < (SetSize x y z (DetectorConstruction.create nist e).1
      (DetectorConstruction.create nist e).2).2.nextPtr := create_nextPtr nist e
  refine ⟨fun d e0 => rfl, rx, ry, rz, ?_⟩
  have hgen := room_within_world_iff K nist
    (SetSize x y z (DetectorConstruction.create nist e).1
      (DetectorConstruction.create nist e).2).1
    (SetSize x y z (DetectorConstruction.create nist e).1
      (DetectorConstruction.create nist e).2).2 hptr
    (by rw [rx, hm]; norm_num) (by rw [ry, hm]; norm_num) (by rw [rz, hm]; norm_num)
  rw [rx, ry, rz, bx, bY, bz] at hgen
  exact hgen

/-- Witness for claim C12: after `SetSize` with 2 m in each direction on the
sample detector, the Room placement does not lie within the World box. -/
theorem C12_SetSize_room_in_world_witness :
    ¬ (∀ pv ∈ (constructedAfterSetSize sampleNist Engine.startup 2000 2000 2000).2.2.physicalVolumeStore,
        pv.pName = "Room" →
        (constructedAfterSetSize sampleNist Engine.startup 2000 2000 2000).2.2.withinMother ℚ pv) := by
  intro hall
  obtain ⟨-, -, -, -, pv, hmem, hname, -, hiff, -⟩ :=
    C12_SetSize_room_in_world ℚ sampleNist Engine.startup 2000 2000 2000
  have h := (hiff.mp (hall pv hmem hname)).1
  norm_num [m, mm] at h

/-- Claim C13. For every materials database, detector object and engine state,
the placements that `ConstructVolumes` registers are World, Room, Slab, Tank,
Chamber, probePE, Detector, poly and source, and each has copy number 0, so
none has copy number -1. Hence a step whose pre-step and post-step physical
volumes are both placements of this hierarchy, a step within the World volume
included, is not discarded at line 84: it passes the two discard checks, and
with its step-defining process present the callback does what the rule table
of lines 86-180 does. -/
theorem C13_copy_numbers_zero (nist : NistDatabase) (d : DetectorConstruction) (e : Engine) :
    (ConstructVolumes nist d e).2.2.physicalVolumeStore.map (fun pv => pv.pName) =
      ["World", "Room", "Slab", "Tank", "Chamber", "probePE", "Detector", "poly", "source"] ∧
    (∀ pv ∈ (ConstructVolumes nist d e).2.2.physicalVolumeStore,
      pv.GetCopyNo = 0 ∧ pv.GetCopyNo ≠ -1) ∧
    (∀ (fDetector : DetectorConstruction) (step : G4Step) (pre post : G4PVPlacement),
      pre ∈ (ConstructVolumes nist d e).2.2.physicalVolumeStore →
      post ∈ (ConstructVolumes nist d e).2.2.physicalVolumeStore →
      step.prePhysical = some pre → step.postPhysical = some post →
      ¬ (pre.GetCopyNo = -1 ∧ post.GetCopyNo = -1) ∧
      passesDiscardChecks step ∧
      ∀ processName, step.processDefinedStep = some processName →
        UserSteppingAction fDetector step =
          ruleTable fDetector step processName pre post) := by
  have hzero : ∀ pv ∈ (ConstructVolumes nist d e).2.2.physicalVolumeStore,
      pv.GetCopyNo = 0 := by
    intro pv hpv
    unfold G4PVPlacement.GetCopyNo
    rcases ConstructVolumes_placement_cases nist d e pv hpv with
      ⟨-, -, -, -, h⟩ | ⟨-, -, -, -, h⟩ | ⟨-, -, -, -, h⟩ | ⟨-, -, -, -, h⟩ |
      ⟨-, -, -, -, h⟩ | ⟨-, -, -, -, h⟩ | ⟨-, -, -, -, h⟩ | ⟨-, -, -, -, h⟩ |
      ⟨-, -, -, -, h⟩ <;> exact h
  refine ⟨ConstructVolumes_names nist d e, ?_, ?_⟩
  · intro pv hpv
    have h := hzero pv hpv
    exact ⟨h, by rw [h]; decide⟩
  · intro fDetector step pre post hpre hpost hspre hspost
    have hdisc : ¬ (pre.GetCopyNo = -1 ∧ post.GetCopyNo = -1) := by
      intro hboth
      have h := hzero pre hpre
      rw [hboth.1] at h
      exact absurd h (by decide)
    refine ⟨hdisc, ⟨pre, post, hspre, hspost, hdisc⟩, ?_⟩
    intro processName hproc
    exact UserSteppingAction_eq_ruleTable fDetector step processName pre post hproc hspre
      hspost hdisc

/-- Witness for claim C13: the step that starts and ends in the World volume
of the built detector passes the discard checks and is handed to the rule
table. -/
theorem C13_copy_numbers_zero_witness :
    passesDiscardChecks stepInsideWorld ∧
    UserSteppingAction builtDetector stepInsideWorld =
      ruleTable builtDetector stepInsideWorld "Transportation" (builtPlacement "World")
        (builtPlacement "World") :=
  ⟨((C13_copy_numbers_zero sampleNist (DetectorConstruction.create sampleNist Engine.startup).1
      (DetectorConstruction.create sampleNist Engine.startup).2).2.2 builtDetector
      stepInsideWorld (builtPlacement "World") (builtPlacement "World")
      (List.mem_of_find?_eq_some
        (rfl : builtEngine.physicalNamed "World" = some (builtPlacement "World")))
      (List.mem_of_find?_eq_some
        (rfl : builtEngine.physicalNamed "World" = some (builtPlacement "World")))
      rfl rfl).2.1,
   ((C13_copy_numbers_zero sampleNist (DetectorConstruction.create sampleNist Engine.startup).1
      (DetectorConstruction.create sampleNist Engine.startup).2).2.2 builtDetector
      stepInsideWorld (builtPlacement "World") (builtPlacement "World")
      (List.mem_of_find?_eq_some
        (rfl : builtEngine.physicalNamed "World" = some (builtPlacement "World")))
      (List.mem_of_find?_eq_some
        (rfl : builtEngine.physicalNamed "World" = some (builtPlacement "World")))
      rfl rfl).2.2 "Transportation" rfl⟩

end ProbeSim
